import Mathlib

/-!
# Verification of the typed REST resource-client pattern

A shallow embedding of the request/validate/dispatch/decode/error-map pattern of the
AkamaiOPEN-edgegrid-golang packages (gtm, edgeworkers, cloudlets, papi, and the
networklists/cps/datastream client constructors), with theorems settling the spec claims.

Conventions of the embedding:
* Machine integers of the source (`int`, `int64`) are `Int`.
* A fallible step is `Except`/`Option`; the outcome of the external session collaborator
  (`Exec`), of `url.Parse`, and of `http.NewRequestWithContext` is supplied by an
  environment record, since those live outside this repository.
* Each operation returns the (possibly updated) client value, the Go
  `(result, error)` pair as an `Except`, and the list of `Exec` dispatches it performed,
  so that "no network call happened" and "the client is never mutated" are statable.
-/

/-- An HTTP request as the operations build it: method and target URL
(headers are set but never branched on, so they are not modelled). -/
structure HttpReq where
  method : String
  url : String
deriving DecidableEq, Repr

/-- One dispatch through the session collaborator (`p.Exec(req, target [, body])`).
`req = none` models a nil `*http.Request` being passed (construction had failed);
`hasBody` records whether an optional request body argument was given. -/
structure ExecCall where
  req : Option HttpReq
  hasBody : Bool
deriving DecidableEq, Repr

/-- What the error mapper can see in a failed response's body. -/
inductive ErrBody where
  /-- `ioutil.ReadAll(r.Body)` itself failed with this message. -/
  | readErr (msg : String)
  /-- The body unmarshalled into the problem-details `Error` shape. -/
  | jsonErr (etype title detail inst behaviorName errorLocation : String)
  /-- The body was not valid JSON for the `Error` shape: raw text plus the
  `json.Unmarshal` error message. -/
  | invalid (raw : String) (unmarshalMsg : String)
deriving DecidableEq

/-- A response as the session hands it back: status code, the value it decoded into
the operation's target struct, and the body as the error mapper would read it. -/
structure Resp (β : Type) where
  status : Nat
  decoded : β
  errBody : ErrBody

/-- Environment of one operation call: outcomes of `url.Parse` (`parseErr`),
`http.NewRequestWithContext` (`reqErr`, `some msg` = non-nil error), and `Exec`. -/
structure Env (β : Type) where
  parseErr : Option String := none
  reqErr : Option String := none
  exec : Except String (Resp β)

/-! ## gtm data model (src/pkg/gtm/cidrmap.go) -/

/-- `DatacenterBase` (referenced by cidrmap.go; fields as used by `NewCidrAssignment`). -/
structure DatacenterBase where
  nickname : String
  datacenterId : Int
deriving DecidableEq

/-- `CidrAssignment`: a GTM cidr assignment element. -/
structure CidrAssignment where
  datacenterBase : DatacenterBase
  blocks : List String
deriving DecidableEq

/-- `Link` contained in responses (opaque to every claim). -/
structure Link where
  rel : String
  href : String
deriving DecidableEq

/-- `CidrMap`: a GTM cidrMap element. `defaultDatacenter = none` models a nil pointer. -/
structure CidrMap where
  defaultDatacenter : Option DatacenterBase
  assignments : List CidrAssignment
  name : String
  links : List Link
deriving DecidableEq

/-- `CidrMapList`: a GTM returned cidrmap list body. -/
structure CidrMapList where
  cidrMapItems : List CidrMap
deriving DecidableEq

/-- `ResponseStatus` (not among the sources; opaque payload, never branched on). -/
structure ResponseStatus where
  message : String
deriving DecidableEq

/-- `CidrMapResponse`: resource plus status, as used by `save` and `UpdateCidrMap`. -/
structure CidrMapResponse where
  resource : Option CidrMap
  status : Option ResponseStatus
deriving DecidableEq

/-- `ResponseBody` as used by `DeleteCidrMap`. -/
structure ResponseBody where
  status : Option ResponseStatus
deriving DecidableEq

/-- `CidrMap.Validate` of cidrmap.go: first failing rule is returned alone;
`none` = nil error. -/
def CidrMap.validate (cidr : CidrMap) : Option String :=
  if cidr.name.length < 1 then some "CidrMap is missing Name"
  else if cidr.defaultDatacenter = none then some "CidrMap is missing DefaultDatacenter"
  else none

/-! ## gtm typed Error (src/pkg/gtm/errors.go) -/

/-- The gtm `Error` struct. `mtype` models the Go field `Type` and `inst` the field
`Instance` (both Lean keywords); `statusCode` has JSON tag `-` in the source and is
excluded from marshalling. -/
structure GtmError where
  mtype : String := ""
  title : String := ""
  detail : String := ""
  inst : String := ""
  behaviorName : String := ""
  errorLocation : String := ""
  statusCode : Nat := 0
deriving DecidableEq

/-- `(p *gtm).Error`: parse an error from the response. On a body read failure or an
unmarshal failure the title/detail fall back to fixed text plus the failure message;
the numeric status code is copied from the response in every branch. -/
def gtmMapError (status : Nat) (body : ErrBody) : GtmError :=
  match body with
  | ErrBody.readErr msg =>
    { title := "Failed to read error body", detail := msg, statusCode := status }
  | ErrBody.jsonErr etype title detail inst behaviorName errorLocation =>
    { mtype := etype, title := title, detail := detail, inst := inst,
      behaviorName := behaviorName, errorLocation := errorLocation, statusCode := status }
  | ErrBody.invalid _ msg =>
    { title := "Failed to unmarshal error body", detail := msg, statusCode := status }

/-- The lower-case hex digit of `n < 16`, as `encoding/json` writes it. -/
def loHexDigit (n : Nat) : Char :=
  if n < 10 then Char.ofNat (48 + n) else Char.ofNat (87 + n)

/-- One character as `encoding/json` (HTML escaping on, as in `json.MarshalIndent`)
writes it inside a string literal. -/
def escChar (c : Char) : List Char :=
  if c = '"' then ['\\', '"']
  else if c = '\\' then ['\\', '\\']
  else if c = '\n' then ['\\', 'n']
  else if c = '\r' then ['\\', 'r']
  else if c = '\t' then ['\\', 't']
  else if c = '<' then ['\\', 'u', '0', '0', '3', 'c']
  else if c = '>' then ['\\', 'u', '0', '0', '3', 'e']
  else if c = '&' then ['\\', 'u', '0', '0', '2', '6']
  else if c.toNat < 32 then
    ['\\', 'u', '0', '0', loHexDigit (c.toNat / 16), loHexDigit (c.toNat % 16)]
  else if c.toNat = 8232 then ['\\', 'u', '2', '0', '2', '8']
  else if c.toNat = 8233 then ['\\', 'u', '2', '0', '2', '9']
  else [c]

/-- A whole string, JSON-escaped. -/
def escStr (s : List Char) : List Char := s.flatMap escChar

/-- One optional (`omitempty`) marshalled field: nothing when the value is empty. -/
def optField (name : String) (val : String) : List Char :=
  if val = "" then []
  else (",\n\t\"" ++ name ++ "\": \"").data ++ escStr val.data ++ ['"']

/-- `(e *Error).Error()`: the `json.MarshalIndent(e, "", "\t")` text behind the
`API error:` banner, field for field in declaration order, `omitempty` respected,
`StatusCode` excluded (JSON tag `-`). -/
def errMessage (e : GtmError) : List Char :=
  "API error: \n\x7b\n\t\"type\": \"".data ++ escStr e.mtype.data
    ++ "\",\n\t\"title\": \"".data ++ escStr e.title.data
    ++ "\",\n\t\"detail\": \"".data ++ escStr e.detail.data ++ ['"']
    ++ optField "instance" e.inst
    ++ optField "behaviorName" e.behaviorName
    ++ optField "errorLocation" e.errorLocation
    ++ "\n\x7d".data

/-- An error value as it can reach `(*Error).Is` as target: the `ErrNotFound`
sentinel, a typed `*Error`, or an unrelated plain error. -/
inductive GoErr where
  | notFound
  | typed (e : GtmError)
  | plain (msg : String)
deriving DecidableEq

/-- Go `errors.Is(target, ErrNotFound)`. For a typed `*Error` target, `errors.Is`
invokes the target's own `Is` method, whose first branch compares
`errors.Is(ErrNotFound, ErrNotFound) && target.StatusCode == 404`; so a typed
target matches the sentinel exactly when its status code is 404. -/
def errorsIsNotFound : GoErr → Bool
  | GoErr.notFound => true
  | GoErr.typed e => e.statusCode == 404
  | GoErr.plain _ => false

/-- `(e *Error).Is(target)` of errors.go: sentinel-by-status first, then
`errors.As` to a typed error, then status-code and rendered-message comparison
(the pointer-equality fast path of the source is subsumed by the latter). -/
def gtmIs (e : GtmError) (target : GoErr) : Bool :=
  if errorsIsNotFound target && e.statusCode == 404 then true
  else
    match target with
    | GoErr.typed t =>
      if e.statusCode != t.statusCode then false
      else decide (errMessage e = errMessage t)
    | _ => false

/-! ## gtm operations (src/pkg/gtm/cidrmap.go)

The `gtm` client struct is not among the sources; per the spec each client embeds the
external Session, modelled as an opaque handle. -/

/-- Modelled from the spec: the `gtm` client struct (its gtm.go is not among the
sources); the spec says each concrete client embeds the session and nothing else. -/
structure GtmClient where
  session : Nat
deriving DecidableEq

/-- Modelled from the spec: `session.NewAPIError` (session package, outside these
sources) maps a failed response to a typed error carrying the response's status
and the decoded problem-details title/detail, with the raw text as fallback. -/
structure SessAPIError where
  status : Nat
  title : String
  detail : String
deriving DecidableEq

/-- The error values the embedded operations return, one constructor per
`fmt.Errorf`/mapper shape appearing in the sources. -/
inductive OpErr where
  /-- gtm style `fmt.Errorf("CidrMap validation failed. %w", err)`. -/
  | validationMsg (op msg : String)
  /-- `fmt.Errorf("%s: %w: %s", Err<Op>, ErrStructValidation, err)` with the
  aggregated field errors. -/
  | validationFields (op : String) (fields : List (String × String))
  /-- `url.Parse` failure wrap. -/
  | urlParse (op msg : String)
  /-- `http.NewRequestWithContext` failure wrap. -/
  | reqConstruct (op msg : String)
  /-- `Exec` transport failure wrap. -/
  | transport (op msg : String)
  /-- gtm: `return nil, p.Error(resp)` — the mapper error, unwrapped. -/
  | gtmAPI (e : GtmError)
  /-- edgeworkers: `fmt.Errorf("%s: %w", Err<Op>, e.Error(resp))`. -/
  | wrappedAPI (op : String) (e : GtmError)
  /-- cloudlets DeletePolicyProperty: `fmt.Errorf("%w: %d", ErrDeletePolicyProperty,
  resp.StatusCode)` — the numeric status only, body unread. -/
  | statusOnly (op : String) (status : Nat)
  /-- papi 404 branch: `fmt.Errorf("%w: %s", session.ErrNotFound, getURL)`. -/
  | notFoundURL (url : String)
  /-- papi other non-success statuses: `session.NewAPIError(resp, logger)`. -/
  | sessionAPI (e : SessAPIError)
  /-- papi CreateEdgeHostname: `fmt.Errorf("%w: %s", tools.ErrInvalidLocation, err)`. -/
  | invalidLocation (msg : String)
deriving DecidableEq

/-- Result of one operation call: client value after the call, the Go
`(result, error)` pair, and every `Exec` dispatch performed. -/
structure OpOut (σ α : Type) where
  client : σ
  result : Except OpErr α
  trace : List ExecCall

/-- Modelled from the spec: `session.NewAPIError` decodes the problem-details body
(title/detail) and preserves the status; a non-JSON body degrades to its raw text. -/
def sessNewAPIError (status : Nat) (body : ErrBody) : SessAPIError :=
  match body with
  | ErrBody.readErr msg => { status := status, title := "", detail := msg }
  | ErrBody.jsonErr _ title detail _ _ _ => { status := status, title := title, detail := detail }
  | ErrBody.invalid raw _ => { status := status, title := raw, detail := raw }

/-- `(p *gtm).ListCidrMaps`: GET the domain's cidr-maps collection, 200 expected,
returning the decoded list's items. -/
def listCidrMaps (p : GtmClient) (domainName : String) (env : Env CidrMapList) :
    OpOut GtmClient (List CidrMap) :=
  let getURL := "/config-gtm/v1/domains/" ++ domainName ++ "/cidr-maps"
  match env.reqErr with
  | some msg => ⟨p, Except.error (OpErr.reqConstruct "ListCidrMaps" msg), []⟩
  | none =>
    let call : ExecCall := ⟨some ⟨"GET", getURL⟩, false⟩
    match env.exec with
    | Except.error msg => ⟨p, Except.error (OpErr.transport "ListCidrMaps" msg), [call]⟩
    | Except.ok resp =>
      if resp.status ≠ 200 then
        ⟨p, Except.error (OpErr.gtmAPI (gtmMapError resp.status resp.errBody)), [call]⟩
      else ⟨p, Except.ok resp.decoded.cidrMapItems, [call]⟩

/-- `(p *gtm).GetCidrMap`: GET one named cidr-map, 200 expected. -/
def getCidrMap (p : GtmClient) (name domainName : String) (env : Env CidrMap) :
    OpOut GtmClient CidrMap :=
  let getURL := "/config-gtm/v1/domains/" ++ domainName ++ "/cidr-maps/" ++ name
  match env.reqErr with
  | some msg => ⟨p, Except.error (OpErr.reqConstruct "GetCidrMap" msg), []⟩
  | none =>
    let call : ExecCall := ⟨some ⟨"GET", getURL⟩, false⟩
    match env.exec with
    | Except.error msg => ⟨p, Except.error (OpErr.transport "GetCidrMap" msg), [call]⟩
    | Except.ok resp =>
      if resp.status ≠ 200 then
        ⟨p, Except.error (OpErr.gtmAPI (gtmMapError resp.status resp.errBody)), [call]⟩
      else ⟨p, Except.ok resp.decoded, [call]⟩

/-- `(cidr *CidrMap).save`: common PUT path of Create and Update; validates first,
then 200 or 201 expected. -/
def CidrMap.save (cidr : CidrMap) (p : GtmClient) (domainName : String)
    (env : Env CidrMapResponse) : OpOut GtmClient CidrMapResponse :=
  match cidr.validate with
  | some msg => ⟨p, Except.error (OpErr.validationMsg "CidrMap validation failed." msg), []⟩
  | none =>
    let putURL := "/config-gtm/v1/domains/" ++ domainName ++ "/cidr-maps/" ++ cidr.name
    match env.reqErr with
    | some msg => ⟨p, Except.error (OpErr.reqConstruct "AsMap" msg), []⟩
    | none =>
      let call : ExecCall := ⟨some ⟨"PUT", putURL⟩, true⟩
      match env.exec with
      | Except.error msg => ⟨p, Except.error (OpErr.transport "CidrMap" msg), [call]⟩
      | Except.ok resp =>
        if resp.status ≠ 200 ∧ resp.status ≠ 201 then
          ⟨p, Except.error (OpErr.gtmAPI (gtmMapError resp.status resp.errBody)), [call]⟩
        else ⟨p, Except.ok resp.decoded, [call]⟩

/-- `(p *gtm).CreateCidrMap`: delegates to `save`. -/
def createCidrMap (p : GtmClient) (cidr : CidrMap) (domainName : String)
    (env : Env CidrMapResponse) : OpOut GtmClient CidrMapResponse :=
  cidr.save p domainName env

/-- `(p *gtm).UpdateCidrMap`: `save`, then project the response's status. -/
def updateCidrMap (p : GtmClient) (cidr : CidrMap) (domainName : String)
    (env : Env CidrMapResponse) : OpOut GtmClient (Option ResponseStatus) :=
  let out := cidr.save p domainName env
  match out.result with
  | Except.error e => ⟨out.client, Except.error e, out.trace⟩
  | Except.ok stat => ⟨out.client, Except.ok stat.status, out.trace⟩

/-- `(p *gtm).DeleteCidrMap`: validates, DELETE, 200 expected. -/
def deleteCidrMap (p : GtmClient) (cidr : CidrMap) (domainName : String)
    (env : Env ResponseBody) : OpOut GtmClient (Option ResponseStatus) :=
  match cidr.validate with
  | some msg => ⟨p, Except.error (OpErr.validationMsg "CidrMap validation failed." msg), []⟩
  | none =>
    let delURL := "/config-gtm/v1/domains/" ++ domainName ++ "/cidr-maps/" ++ cidr.name
    match env.reqErr with
    | some msg => ⟨p, Except.error (OpErr.reqConstruct "Delete" msg), []⟩
    | none =>
      let call : ExecCall := ⟨some ⟨"DELETE", delURL⟩, false⟩
      match env.exec with
      | Except.error msg => ⟨p, Except.error (OpErr.transport "CidrMap" msg), [call]⟩
      | Except.ok resp =>
        if resp.status ≠ 200 then
          ⟨p, Except.error (OpErr.gtmAPI (gtmMapError resp.status resp.errBody)), [call]⟩
        else ⟨p, Except.ok resp.decoded.status, [call]⟩

/-! ## ozzo-validation model (github.com/go-ozzo/ozzo-validation/v4)

`validation.Errors{...}.Filter()` collects one optional error per field and returns
nil when none remain; its rendered message lists the violated fields sorted by key.
A validator here returns the violated fields in that sorted key order; `[]` = nil. -/

/-- `validation.Required` on a Go `int`/`int64`: fails on the zero value. -/
def requiredInt (v : Int) : Option String :=
  if v = 0 then some "cannot be blank" else none

/-- `validation.Required` on a Go `string`: fails on the empty string. -/
def requiredString (s : String) : Option String :=
  if s = "" then some "cannot be blank" else none

/-- `validation.In(...)` (optionally with a custom message): skipped on an empty
value, fails when the value is not among the allowed ones. -/
def inString (allowed : List String) (msg : String) (v : String) : Option String :=
  if v = "" then none
  else if v ∈ allowed then none
  else some msg

/-- One keyed entry of a `validation.Errors` map, absent when the rule passed. -/
def fieldErr (key : String) : Option String → List (String × String)
  | none => []
  | some m => [(key, m)]

/-- `validation.Errors.Error()`: `"key1: err1; key2: err2."` over the sorted keys. -/
def renderFieldErrs (l : List (String × String)) : String :=
  String.intercalate "; " (l.map (fun p => p.1 ++ ": " ++ p.2)) ++ "."

/-! ## edgeworkers data model and operations (src/pkg/edgeworkers/deactivations.go) -/

/-- `Deactivation`: the response of Get/List/DeactivateVersion. The network field is
the `ActivationNetwork` string type. -/
structure Deactivation where
  edgeWorkerID : Int
  version : String
  deactivationID : Int
  accountID : String
  status : String
  network : String
  note : String
  createdBy : String
  createdTime : String
  lastModifiedTime : String
deriving DecidableEq

/-- `EdgeWorkerListDeactivationsRequest`. -/
structure EdgeWorkerListDeactivationsRequest where
  edgeWorkerID : Int
  version : String
deriving DecidableEq

/-- `EdgeWorkerDeactivateVersionPayload`. -/
structure EdgeWorkerDeactivateVersionPayload where
  network : String
  note : String
  version : String
deriving DecidableEq

/-- `EdgeWorkerDeactivateVersionRequest`. -/
structure EdgeWorkerDeactivateVersionRequest where
  edgeWorkerID : Int
  body : EdgeWorkerDeactivateVersionPayload
deriving DecidableEq

/-- `EdgeWorkerGetDeactivationRequest`. -/
structure EdgeWorkerGetDeactivationRequest where
  edgeWorkerID : Int
  deactivationID : Int
deriving DecidableEq

/-- `EdgeWorkerListDeactivationsResponse`. -/
structure EdgeWorkerListDeactivationsResponse where
  deactivations : List Deactivation
deriving DecidableEq

/-- The rule chain on `Body.Network`: `Required`, then `In(PRODUCTION, STAGING)` with
the custom message of deactivations.go (the `ActivationNetwork` constants live in the
absent activations.go; per their use they are the strings STAGING and PRODUCTION). -/
def networkRule (n : String) : Option String :=
  match requiredString n with
  | some m => some m
  | none =>
    inString ["PRODUCTION", "STAGING"]
      ("value \x27" ++ n ++ "\x27 is invalid. Must be one of: \x27STAGING\x27 or \x27PRODUCTION\x27") n

/-- `EdgeWorkerListDeactivationsRequest.Validate`. -/
def ewListDeactivationsValidate (r : EdgeWorkerListDeactivationsRequest) :
    List (String × String) :=
  fieldErr "EdgeWorkerID" (requiredInt r.edgeWorkerID)

/-- `EdgeWorkerDeactivateVersionRequest.Validate`: all three field rules, collected. -/
def ewDeactivateVersionValidate (r : EdgeWorkerDeactivateVersionRequest) :
    List (String × String) :=
  fieldErr "Body.Network" (networkRule r.body.network)
    ++ fieldErr "Body.Version" (requiredString r.body.version)
    ++ fieldErr "EdgeWorkerID" (requiredInt r.edgeWorkerID)

/-- `EdgeWorkerGetDeactivationRequest.Validate`. -/
def ewGetDeactivationValidate (r : EdgeWorkerGetDeactivationRequest) :
    List (String × String) :=
  fieldErr "DeactivationID" (requiredInt r.deactivationID)
    ++ fieldErr "EdgeWorkerID" (requiredInt r.edgeWorkerID)

/-- The upper-case hex digit of `n < 16`, as `url.QueryEscape` writes it. -/
def upHex (n : Nat) : Char :=
  if n < 10 then Char.ofNat (48 + n) else Char.ofNat (55 + n)

/-- The UTF-8 bytes of a code point. -/
def utf8Bytes (n : Nat) : List Nat :=
  if n < 128 then [n]
  else if n < 2048 then [192 + n / 64, 128 + n % 64]
  else if n < 65536 then [224 + n / 4096, 128 + n / 64 % 64, 128 + n % 64]
  else [240 + n / 262144, 128 + n / 4096 % 64, 128 + n / 64 % 64, 128 + n % 64]

/-- Go `url.QueryEscape` on one character: space becomes `+`, unreserved characters
pass through, everything else is percent-encoded byte by byte. -/
def queryEscapeChar (c : Char) : List Char :=
  if c = ' ' then ['+']
  else if c.isAlphanum ∨ c = '-' ∨ c = '_' ∨ c = '.' ∨ c = '~' then [c]
  else (utf8Bytes c.toNat).flatMap (fun b => ['%', upHex (b / 16), upHex (b % 16)])

/-- Go `url.QueryEscape`. -/
def queryEscape (s : String) : String :=
  String.mk (s.data.flatMap queryEscapeChar)

/-- The `edgeworkers` client struct: embeds the session (part_001's `TestClient`
builds it as `&edgeworkers{Session: sess}`), modelled as an opaque handle. -/
structure EwClient where
  session : Nat
deriving DecidableEq

/-- Modelled from the spec: the edgeworkers Error mapper (its errors.go is not among
the sources); per the spec it decodes the problem-details body into the typed Error,
falls back to the raw body text on decode failure, and preserves the status code. -/
def ewMapError (status : Nat) (body : ErrBody) : GtmError :=
  match body with
  | ErrBody.readErr msg => { detail := msg, statusCode := status }
  | ErrBody.jsonErr etype title detail inst behaviorName errorLocation =>
    { mtype := etype, title := title, detail := detail, inst := inst,
      behaviorName := behaviorName, errorLocation := errorLocation, statusCode := status }
  | ErrBody.invalid raw _ => { title := raw, statusCode := status }

/-- `(e *edgeworkers).ListDeactivations`: validate, parse URL, optional `version`
query parameter, GET, 200 expected. -/
def listDeactivations (e : EwClient) (params : EdgeWorkerListDeactivationsRequest)
    (env : Env EdgeWorkerListDeactivationsResponse) :
    OpOut EwClient EdgeWorkerListDeactivationsResponse :=
  let v := ewListDeactivationsValidate params
  if v ≠ [] then ⟨e, Except.error (OpErr.validationFields "list deactivations" v), []⟩
  else match env.parseErr with
  | some msg => ⟨e, Except.error (OpErr.urlParse "list deactivations" msg), []⟩
  | none =>
    let uri := "/edgeworkers/v1/ids/" ++ toString params.edgeWorkerID ++ "/deactivations"
      ++ (if params.version ≠ "" then "?version=" ++ queryEscape params.version else "")
    match env.reqErr with
    | some msg => ⟨e, Except.error (OpErr.reqConstruct "list deactivations" msg), []⟩
    | none =>
      let call : ExecCall := ⟨some ⟨"GET", uri⟩, false⟩
      match env.exec with
      | Except.error msg => ⟨e, Except.error (OpErr.transport "list deactivations" msg), [call]⟩
      | Except.ok resp =>
        if resp.status ≠ 200 then
          ⟨e, Except.error (OpErr.wrappedAPI "list deactivations"
            (ewMapError resp.status resp.errBody)), [call]⟩
        else ⟨e, Except.ok resp.decoded, [call]⟩

/-- `(e *edgeworkers).DeactivateVersion`: validate, parse URL, POST with the payload
as body, 201 expected. -/
def deactivateVersion (e : EwClient) (params : EdgeWorkerDeactivateVersionRequest)
    (env : Env Deactivation) : OpOut EwClient Deactivation :=
  let v := ewDeactivateVersionValidate params
  if v ≠ [] then ⟨e, Except.error (OpErr.validationFields "deactivate version" v), []⟩
  else match env.parseErr with
  | some msg => ⟨e, Except.error (OpErr.urlParse "deactivate version" msg), []⟩
  | none =>
    let uri := "/edgeworkers/v1/ids/" ++ toString params.edgeWorkerID ++ "/deactivations"
    match env.reqErr with
    | some msg => ⟨e, Except.error (OpErr.reqConstruct "deactivate version" msg), []⟩
    | none =>
      let call : ExecCall := ⟨some ⟨"POST", uri⟩, true⟩
      match env.exec with
      | Except.error msg => ⟨e, Except.error (OpErr.transport "deactivate version" msg), [call]⟩
      | Except.ok resp =>
        if resp.status ≠ 201 then
          ⟨e, Except.error (OpErr.wrappedAPI "deactivate version"
            (ewMapError resp.status resp.errBody)), [call]⟩
        else ⟨e, Except.ok resp.decoded, [call]⟩

/-- `(e *edgeworkers).GetDeactivation`: validate, parse URL, then — unlike every
other operation — the `http.NewRequestWithContext` error is never examined: the
request (nil on construction failure) goes straight to `Exec`, 200 expected. -/
def getDeactivation (e : EwClient) (params : EdgeWorkerGetDeactivationRequest)
    (env : Env Deactivation) : OpOut EwClient Deactivation :=
  let v := ewGetDeactivationValidate params
  if v ≠ [] then ⟨e, Except.error (OpErr.validationFields "get deactivation" v), []⟩
  else match env.parseErr with
  | some msg => ⟨e, Except.error (OpErr.urlParse "get deactivation" msg), []⟩
  | none =>
    let uri := "/edgeworkers/v1/ids/" ++ toString params.edgeWorkerID
      ++ "/deactivations/" ++ toString params.deactivationID
    let req : Option HttpReq :=
      match env.reqErr with
      | some _ => none
      | none => some ⟨"GET", uri⟩
    let call : ExecCall := ⟨req, false⟩
    match env.exec with
    | Except.error msg => ⟨e, Except.error (OpErr.transport "get deactivation" msg), [call]⟩
    | Except.ok resp =>
      if resp.status ≠ 200 then
        ⟨e, Except.error (OpErr.wrappedAPI "get deactivation"
          (ewMapError resp.status resp.errBody)), [call]⟩
      else ⟨e, Except.ok resp.decoded, [call]⟩

/-! ## cloudlets (src/pkg/cloudlets/policy_property.go) -/

/-- `DeletePolicyPropertyRequest`; the network field is the
`VersionActivationNetwork` string type. -/
structure DeletePolicyPropertyRequest where
  policyID : Int
  propertyID : Int
  network : String
deriving DecidableEq

/-- The `cloudlets` client struct, embedding the session. -/
structure CloudletsClient where
  session : Nat
deriving DecidableEq

/-- `DeletePolicyPropertyRequest.Validate`. -/
def deletePolicyPropertyValidate (r : DeletePolicyPropertyRequest) :
    List (String × String) :=
  fieldErr "PolicyID" (requiredInt r.policyID)
    ++ fieldErr "PropertyID" (requiredInt r.propertyID)

/-- `(c *cloudlets).DeletePolicyProperty`: validate, parse URL, optional `network`
query parameter, DELETE with a nil decode target, 204 expected; any other status
yields only the operation sentinel plus the numeric status code — the body is never
read. -/
def deletePolicyProperty (c : CloudletsClient) (params : DeletePolicyPropertyRequest)
    (env : Env Unit) : OpOut CloudletsClient Unit :=
  let v := deletePolicyPropertyValidate params
  if v ≠ [] then ⟨c, Except.error (OpErr.validationFields "delete policy property" v), []⟩
  else match env.parseErr with
  | some msg => ⟨c, Except.error (OpErr.urlParse "delete policy property" msg), []⟩
  | none =>
    let uri := "/cloudlets/api/v2/policies/" ++ toString params.policyID
      ++ "/properties/" ++ toString params.propertyID
      ++ (if params.network ≠ "" then "?network=" ++ queryEscape params.network else "")
    match env.reqErr with
    | some msg => ⟨c, Except.error (OpErr.reqConstruct "delete policy property" msg), []⟩
    | none =>
      let call : ExecCall := ⟨some ⟨"DELETE", uri⟩, false⟩
      match env.exec with
      | Except.error msg => ⟨c, Except.error (OpErr.transport "delete policy property" msg), [call]⟩
      | Except.ok resp =>
        if resp.status ≠ 204 then
          ⟨c, Except.error (OpErr.statusOnly "delete policy property" resp.status), [call]⟩
        else ⟨c, Except.ok (), [call]⟩

/-! ## papi edge hostnames (src/unnamed/part_002) -/

/-- `UseCase`; `uctype` models the Go field `Type` (a Lean keyword). -/
structure UseCase where
  option : String
  uctype : String
  useCase : String
deriving DecidableEq

/-- `EdgeHostnameGetItem`. -/
structure EdgeHostnameGetItem where
  id : String
  domain : String
  productID : String
  domainPrefixVal : String
  domainSuffix : String
  status : String
  secure : Bool
  ipVersionBehavior : String
  useCases : List UseCase
deriving DecidableEq

/-- `EdgeHostnameItems`. -/
structure EdgeHostnameItems where
  items : List EdgeHostnameGetItem
deriving DecidableEq

/-- `GetEdgeHostnamesResponse`. -/
structure GetEdgeHostnamesResponse where
  accountID : String
  contractID : String
  groupID : String
  edgeHostnames : EdgeHostnameItems
deriving DecidableEq

/-- `GetEdgeHostnamesRequest`. -/
structure GetEdgeHostnamesRequest where
  contractID : String
  groupID : String
  options : List String
deriving DecidableEq

/-- `GetEdgeHostnameRequest`. -/
structure GetEdgeHostnameRequest where
  edgeHostnameID : String
  contractID : String
  groupID : String
  options : List String
deriving DecidableEq

/-- `EdgeHostnameCreate`; `domainPrefixVal` models the Go field `DomainPrefix`. -/
structure EdgeHostnameCreate where
  productID : String
  domainPrefixVal : String
  domainSuffix : String
  secure : Bool
  secureNetwork : String
  slotNumber : Int
  ipVersionBehavior : String
  certEnrollmentID : Int
  useCases : List UseCase
deriving DecidableEq

/-- `CreateEdgeHostnameRequest`. -/
structure CreateEdgeHostnameRequest where
  contractID : String
  groupID : String
  options : List String
  edgeHostname : EdgeHostnameCreate
deriving DecidableEq

/-- `CreateEdgeHostnameResponse`: the returned link plus the ID the operation fills
in afterwards (JSON tag `-`). -/
structure CreateEdgeHostnameResponse where
  edgeHostnameLink : String
  edgeHostnameID : String
deriving DecidableEq

/-- `UseCase.Validate`. -/
def useCaseValidate (uc : UseCase) : List (String × String) :=
  fieldErr "Option" (requiredString uc.option)
    ++ fieldErr "Type"
      (match requiredString uc.uctype with
       | some m => some m
       | none => inString ["GLOBAL"] "must be a valid value" uc.uctype)
    ++ fieldErr "UseCase" (requiredString uc.useCase)

/-- `validation.Validate` on the `UseCases` slice: every element is validated, the
failing ones collected keyed by index (indices in element order; their string
sorting coincides below ten elements). -/
def useCasesValidate (l : List UseCase) : Option String :=
  let indexed := l.enum.filterMap fun p =>
    match useCaseValidate p.2 with
    | [] => none
    | errs => some (toString p.1, renderFieldErrs errs)
  if indexed = [] then none else some (renderFieldErrs indexed)

/-- The rule chain on `DomainSuffix`: `Required`, then one `In` per
`When(SecureNetwork == ...)` clause, first failure reported. -/
def domainSuffixRule (eh : EdgeHostnameCreate) : Option String :=
  match requiredString eh.domainSuffix with
  | some m => some m
  | none =>
    match (if eh.secureNetwork = "STANDARD_TLS"
           then inString ["edgesuite.net"] "must be a valid value" eh.domainSuffix
           else none) with
    | some m => some m
    | none =>
      match (if eh.secureNetwork = "SHARED_CERT"
             then inString ["akamaized.net"] "must be a valid value" eh.domainSuffix
             else none) with
      | some m => some m
      | none =>
        if eh.secureNetwork = "ENHANCED_TLS"
        then inString ["edgekey.net"] "must be a valid value" eh.domainSuffix
        else none

/-- `EdgeHostnameCreate.Validate`, fields in the sorted key order of the rendered
`validation.Errors`. The allowed `IPVersionBehavior` values are the source constants
`EHIPVersionV4` and `EHIPVersionV6Compliance`, both of which are the string IPV4. -/
def ehCreateValidate (eh : EdgeHostnameCreate) : List (String × String) :=
  fieldErr "CertEnrollmentID"
      (if eh.secureNetwork = "ENHANCED_TLS" then requiredInt eh.certEnrollmentID else none)
    ++ fieldErr "DomainPrefix" (requiredString eh.domainPrefixVal)
    ++ fieldErr "DomainSuffix" (domainSuffixRule eh)
    ++ fieldErr "IPVersionBehavior"
      (match requiredString eh.ipVersionBehavior with
       | some m => some m
       | none => inString ["IPV4", "IPV4"] "must be a valid value" eh.ipVersionBehavior)
    ++ fieldErr "ProductID" (requiredString eh.productID)
    ++ fieldErr "SecureNetwork"
      (inString ["STANDARD_TLS", "SHARED_CERT", "ENHANCED_TLS"] "must be a valid value"
        eh.secureNetwork)
    ++ fieldErr "UseCases" (useCasesValidate eh.useCases)

/-- `CreateEdgeHostnameRequest.Validate`: the two required IDs plus the nested
`EdgeHostname` validation. -/
def createEhRequestValidate (r : CreateEdgeHostnameRequest) : List (String × String) :=
  fieldErr "ContractID" (requiredString r.contractID)
    ++ fieldErr "EdgeHostname"
      (match ehCreateValidate r.edgeHostname with
       | [] => none
       | errs => some (renderFieldErrs errs))
    ++ fieldErr "GroupID" (requiredString r.groupID)

/-- `GetEdgeHostnamesRequest.Validate`. -/
def getEdgeHostnamesValidate (r : GetEdgeHostnamesRequest) : List (String × String) :=
  fieldErr "ContractID" (requiredString r.contractID)
    ++ fieldErr "GroupID" (requiredString r.groupID)

/-- `GetEdgeHostnameRequest.Validate`. -/
def getEdgeHostnameValidate (r : GetEdgeHostnameRequest) : List (String × String) :=
  fieldErr "ContractID" (requiredString r.contractID)
    ++ fieldErr "EdgeHostnameID" (requiredString r.edgeHostnameID)
    ++ fieldErr "GroupID" (requiredString r.groupID)

/-- The `papi` client struct: session plus the `usePrefixes` flag it reads for the
PAPI-Use-Prefixes header. -/
structure PapiClient where
  session : Nat
  usePrefixes : Bool
deriving DecidableEq

/-- `(p *papi).GetEdgeHostnames`: validate, GET with contract/group/options in the
query, 404 mapped to the not-found sentinel with the URL, other non-200 through
`session.NewAPIError`, 200 returns the decoded list. -/
def getEdgeHostnames (p : PapiClient) (params : GetEdgeHostnamesRequest)
    (env : Env GetEdgeHostnamesResponse) : OpOut PapiClient GetEdgeHostnamesResponse :=
  let v := getEdgeHostnamesValidate params
  if v ≠ [] then ⟨p, Except.error (OpErr.validationFields "" v), []⟩
  else
    let getURL := "/papi/v1/edgehostnames?contractId=" ++ params.contractID
      ++ "&groupId=" ++ params.groupID
      ++ (if params.options ≠ []
          then "&options=" ++ String.intercalate "," params.options else "")
    match env.reqErr with
    | some msg => ⟨p, Except.error (OpErr.reqConstruct "getedgehostnames" msg), []⟩
    | none =>
      let call : ExecCall := ⟨some ⟨"GET", getURL⟩, false⟩
      match env.exec with
      | Except.error msg => ⟨p, Except.error (OpErr.transport "getedgehostnames" msg), [call]⟩
      | Except.ok resp =>
        if resp.status = 404 then ⟨p, Except.error (OpErr.notFoundURL getURL), [call]⟩
        else if resp.status ≠ 200 then
          ⟨p, Except.error (OpErr.sessionAPI (sessNewAPIError resp.status resp.errBody)), [call]⟩
        else ⟨p, Except.ok resp.decoded, [call]⟩

/-- `(p *papi).GetEdgeHostname`: like `GetEdgeHostnames` for one hostname ID. -/
def getEdgeHostname (p : PapiClient) (params : GetEdgeHostnameRequest)
    (env : Env GetEdgeHostnamesResponse) : OpOut PapiClient GetEdgeHostnamesResponse :=
  let v := getEdgeHostnameValidate params
  if v ≠ [] then ⟨p, Except.error (OpErr.validationFields "" v), []⟩
  else
    let getURL := "/papi/v1/edgehostnames/" ++ params.edgeHostnameID
      ++ "?contractId=" ++ params.contractID ++ "&groupId=" ++ params.groupID
      ++ (if params.options ≠ []
          then "&options=" ++ String.intercalate "," params.options else "")
    match env.reqErr with
    | some msg => ⟨p, Except.error (OpErr.reqConstruct "getedgehostname" msg), []⟩
    | none =>
      let call : ExecCall := ⟨some ⟨"GET", getURL⟩, false⟩
      match env.exec with
      | Except.error msg => ⟨p, Except.error (OpErr.transport "getedgehostname" msg), [call]⟩
      | Except.ok resp =>
        if resp.status = 404 then ⟨p, Except.error (OpErr.notFoundURL getURL), [call]⟩
        else if resp.status ≠ 200 then
          ⟨p, Except.error (OpErr.sessionAPI (sessNewAPIError resp.status resp.errBody)), [call]⟩
        else ⟨p, Except.ok resp.decoded, [call]⟩

/-- Modelled from the spec: `tools.FetchIDFromLocation` (papi/tools, not among the
sources) parses the returned location link and extracts the trailing path segment as
the resource ID, failing on an unparseable link. The operations below take the
extractor as a parameter; `fetchIDModel` is the concrete stand-in used by
witnesses. This helper scans for the segment after the last slash, stopping at a
query or fragment delimiter. -/
def lastSegAux : List Char → List Char → List Char
  | [], acc => acc
  | c :: rest, acc =>
    if c = '?' ∨ c = '#' then acc
    else if c = '/' then lastSegAux rest []
    else lastSegAux rest (acc ++ [c])

/-- The trailing path segment of a link, query and fragment stripped. -/
def fetchIDModel (loc : String) : Except String String :=
  Except.ok (String.mk (lastSegAux loc.data []))

/-- `(p *papi).CreateEdgeHostname`: validate, POST the `EdgeHostname` body, 201
expected, then extract the new ID from `EdgeHostnameLink` — an extraction failure
turns the otherwise-successful call into an `ErrInvalidLocation` error, a success is
returned with `EdgeHostnameID` filled in. -/
def createEdgeHostname (p : PapiClient) (r : CreateEdgeHostnameRequest)
    (env : Env CreateEdgeHostnameResponse) (fetchID : String → Except String String) :
    OpOut PapiClient CreateEdgeHostnameResponse :=
  let v := createEhRequestValidate r
  if v ≠ [] then ⟨p, Except.error (OpErr.validationFields "" v), []⟩
  else
    let createURL := "/papi/v1/edgehostnames?contractId=" ++ r.contractID
      ++ "&groupId=" ++ r.groupID
      ++ (if r.options ≠ [] then "&options=" ++ String.intercalate "," r.options else "")
    match env.reqErr with
    | some msg => ⟨p, Except.error (OpErr.reqConstruct "createedgehostname" msg), []⟩
    | none =>
      let call : ExecCall := ⟨some ⟨"POST", createURL⟩, true⟩
      match env.exec with
      | Except.error msg => ⟨p, Except.error (OpErr.transport "createedgehostname" msg), [call]⟩
      | Except.ok resp =>
        if resp.status ≠ 201 then
          ⟨p, Except.error (OpErr.sessionAPI (sessNewAPIError resp.status resp.errBody)), [call]⟩
        else
          match fetchID resp.decoded.edgeHostnameLink with
          | Except.error msg => ⟨p, Except.error (OpErr.invalidLocation msg), [call]⟩
          | Except.ok ehID => ⟨p, Except.ok { resp.decoded with edgeHostnameID := ehID }, [call]⟩

/-! ## Client constructors (src/pkg/networklists, src/pkg/cps, src/unnamed/part_000) -/

/-- The `networklists` client struct: session plus a `usePrefixes` flag whose zero
value the constructor leaves untouched. -/
structure NetworklistsClient where
  session : Nat
  usePrefixes : Bool := false
deriving DecidableEq

/-- `networklists.Client`: attach the session, then apply each functional option. -/
def networklistsClientNew (sess : Nat)
    (opts : List (NetworklistsClient → NetworklistsClient)) : NetworklistsClient :=
  opts.foldl (fun c o => o c) { session := sess }

/-- The `cps` client struct. -/
structure CpsClient where
  session : Nat
deriving DecidableEq

/-- `cps.Client`. -/
def cpsClientNew (sess : Nat) (opts : List (CpsClient → CpsClient)) : CpsClient :=
  opts.foldl (fun c o => o c) { session := sess }

/-- The `ds` (datastream) client struct. -/
structure DsClient where
  session : Nat
deriving DecidableEq

/-- `datastream.Client`. -/
def dsClientNew (sess : Nat) (opts : List (DsClient → DsClient)) : DsClient :=
  opts.foldl (fun c o => o c) { session := sess }

/-- The user-visible message of each returned error, following the `fmt.Errorf`
format strings of the sources (renderings for the absent session/tools packages are
modelled from the spec; no claim depends on those). -/
def opErrMessage : OpErr → String
  | OpErr.validationMsg op msg => op ++ " " ++ msg
  | OpErr.validationFields op fields =>
    (if op = "" then "" else op ++ ": ") ++ "struct validation: " ++ renderFieldErrs fields
  | OpErr.urlParse op msg => op ++ ": failed to parse URL: " ++ msg
  | OpErr.reqConstruct op msg => op ++ ": failed to create request: " ++ msg
  | OpErr.transport op msg => op ++ ": request failed: " ++ msg
  | OpErr.gtmAPI e => String.mk (errMessage e)
  | OpErr.wrappedAPI op e => op ++ ": " ++ String.mk (errMessage e)
  | OpErr.statusOnly op status => op ++ ": " ++ toString status
  | OpErr.notFoundURL url => "not found: " ++ url
  | OpErr.sessionAPI e => toString e.status ++ ": " ++ e.title ++ ": " ++ e.detail
  | OpErr.invalidLocation msg => "invalid location: " ++ msg

/-! ## Inverse of the JSON string escaping, used to prove the escaping injective -/

/-- Numeric value of a lower-case hex digit character. -/
def hexVal (c : Char) : Nat :=
  if 97 ≤ c.toNat then c.toNat - 87 else c.toNat - 48

/-- A parser undoing `escChar`-by-`escChar` output; `escStr` is shown to be a right
inverse of it, which makes the escaping injective. -/
def unesc : List Char → Option (List Char)
  | [] => some []
  | c :: r =>
    if c = '\\' then
      match r with
      | [] => none
      | d :: r2 =>
        if d = '"' then (unesc r2).map fun l => '"' :: l
        else if d = '\\' then (unesc r2).map fun l => '\\' :: l
        else if d = 'n' then (unesc r2).map fun l => '\n' :: l
        else if d = 'r' then (unesc r2).map fun l => '\r' :: l
        else if d = 't' then (unesc r2).map fun l => '\t' :: l
        else if d = 'u' then
          match r2 with
          | a :: b :: c2 :: e :: r3 =>
            (unesc r3).map fun l =>
              Char.ofNat (4096 * hexVal a + 256 * hexVal b + 16 * hexVal c2 + hexVal e) :: l
          | _ => none
        else none
    else (unesc r).map fun l => c :: l

/-- `needle` occurs as a contiguous run inside `hay`. -/
def hasSub (needle hay : List Char) : Bool :=
  (List.range (hay.length + 1)).any fun i => needle.isPrefixOf (hay.drop i)

/-- An `Error` value carrying only a status code and a title, the shape the
equality tests exercise. -/
def mkSimpleError (s : Nat) (t : String) : GtmError := { statusCode := s, title := t }

/-! ## Proof layer

First the machinery showing the JSON string escaping injective (via the `unesc`
right inverse), then the `Is`-contract characterisation, then the per-operation
lemmas feeding the claim theorems. -/

/-- A non-backslash character is parsed back as itself. -/
theorem unesc_cons_of_ne (c : Char) (r : List Char) (h : ¬ c = '\\') :
    unesc (c :: r) = (unesc r).map fun l => c :: l := by
  rw [unesc.eq_def]; simp [h]

theorem hexVal_loHexDigit (n : Nat) (h : n < 16) : hexVal (loHexDigit n) = n := by
  interval_cases n <;> decide

theorem char_ofNat_toNat_eq (c : Char) : Char.ofNat c.toNat = c := Char.ofNat_toNat c

theorem unesc_escChar (c : Char) (r : List Char) :
    unesc (escChar c ++ r) = (unesc r).map fun l => c :: l := by
  by_cases h1 : c = '"'
  · subst h1; rw [show escChar '"' ++ r = '\\' :: '"' :: r from rfl, unesc.eq_def]; rfl
  by_cases h2 : c = '\\'
  · subst h2; rw [show escChar '\\' ++ r = '\\' :: '\\' :: r from rfl, unesc.eq_def]; rfl
  by_cases h3 : c = '\n'
  · subst h3; rw [show escChar '\n' ++ r = '\\' :: 'n' :: r from rfl, unesc.eq_def]; rfl
  by_cases h4 : c = '\r'
  · subst h4; rw [show escChar '\r' ++ r = '\\' :: 'r' :: r from rfl, unesc.eq_def]; rfl
  by_cases h5 : c = '\t'
  · subst h5; rw [show escChar '\t' ++ r = '\\' :: 't' :: r from rfl, unesc.eq_def]; rfl
  by_cases h6 : c = '<'
  · subst h6
    rw [show escChar '<' ++ r = '\\' :: 'u' :: '0' :: '0' :: '3' :: 'c' :: r from rfl]
    have hu : unesc ('\\' :: 'u' :: '0' :: '0' :: '3' :: 'c' :: r)
        = (unesc r).map fun l =>
            Char.ofNat (4096 * hexVal '0' + 256 * hexVal '0' + 16 * hexVal '3' + hexVal 'c') :: l := by
      rw [unesc.eq_def]; rfl
    rw [hu, show Char.ofNat (4096 * hexVal '0' + 256 * hexVal '0' + 16 * hexVal '3' + hexVal 'c') = '<' from by decide]
  by_cases h7 : c = '>'
  · subst h7
    rw [show escChar '>' ++ r = '\\' :: 'u' :: '0' :: '0' :: '3' :: 'e' :: r from rfl]
    have hu : unesc ('\\' :: 'u' :: '0' :: '0' :: '3' :: 'e' :: r)
        = (unesc r).map fun l =>
            Char.ofNat (4096 * hexVal '0' + 256 * hexVal '0' + 16 * hexVal '3' + hexVal 'e') :: l := by
      rw [unesc.eq_def]; rfl
    rw [hu, show Char.ofNat (4096 * hexVal '0' + 256 * hexVal '0' + 16 * hexVal '3' + hexVal 'e') = '>' from by decide]
  by_cases h8 : c = '&'
  · subst h8
    rw [show escChar '&' ++ r = '\\' :: 'u' :: '0' :: '0' :: '2' :: '6' :: r from rfl]
    have hu : unesc ('\\' :: 'u' :: '0' :: '0' :: '2' :: '6' :: r)
        = (unesc r).map fun l =>
            Char.ofNat (4096 * hexVal '0' + 256 * hexVal '0' + 16 * hexVal '2' + hexVal '6') :: l := by
      rw [unesc.eq_def]; rfl
    rw [hu, show Char.ofNat (4096 * hexVal '0' + 256 * hexVal '0' + 16 * hexVal '2' + hexVal '6') = '&' from by decide]
  by_cases h9 : c.toNat < 32
  · have hesc : escChar c = ['\\', 'u', '0', '0', loHexDigit (c.toNat / 16), loHexDigit (c.toNat % 16)] := by
      simp [escChar, h1, h2, h3, h4, h5, h6, h7, h8, h9]
    rw [hesc]
    have hu : unesc ('\\' :: 'u' :: '0' :: '0' :: loHexDigit (c.toNat / 16) :: loHexDigit (c.toNat % 16) :: r)
        = (unesc r).map fun l =>
            Char.ofNat (4096 * hexVal '0' + 256 * hexVal '0'
              + 16 * hexVal (loHexDigit (c.toNat / 16)) + hexVal (loHexDigit (c.toNat % 16))) :: l := by
      rw [unesc.eq_def]; rfl
    rw [show (['\\', 'u', '0', '0', loHexDigit (c.toNat / 16), loHexDigit (c.toNat % 16)] : List Char) ++ r
        = '\\' :: 'u' :: '0' :: '0' :: loHexDigit (c.toNat / 16) :: loHexDigit (c.toNat % 16) :: r from rfl]
    rw [hu]
    rw [hexVal_loHexDigit _ (by omega), hexVal_loHexDigit _ (by omega)]
    rw [show 4096 * hexVal '0' + 256 * hexVal '0' + 16 * (c.toNat / 16) + c.toNat % 16 = c.toNat from by
      have hdm := Nat.div_add_mod c.toNat 16
      have hz : hexVal '0' = 0 := by decide
      omega]
    rw [char_ofNat_toNat_eq]
  by_cases h10 : c.toNat = 8232
  · have hc : c = Char.ofNat 8232 := by rw [← h10, char_ofNat_toNat_eq]
    subst hc
    rw [show escChar (Char.ofNat 8232) ++ r = '\\' :: 'u' :: '2' :: '0' :: '2' :: '8' :: r from by
      rw [show escChar (Char.ofNat 8232) = ['\\', 'u', '2', '0', '2', '8'] from by decide]; rfl]
    have hu : unesc ('\\' :: 'u' :: '2' :: '0' :: '2' :: '8' :: r)
        = (unesc r).map fun l =>
            Char.ofNat (4096 * hexVal '2' + 256 * hexVal '0' + 16 * hexVal '2' + hexVal '8') :: l := by
      rw [unesc.eq_def]; rfl
    rw [hu, show Char.ofNat (4096 * hexVal '2' + 256 * hexVal '0' + 16 * hexVal '2' + hexVal '8') = Char.ofNat 8232 from by decide]
  by_cases h11 : c.toNat = 8233
  · have hc : c = Char.ofNat 8233 := by rw [← h11, char_ofNat_toNat_eq]
    subst hc
    rw [show escChar (Char.ofNat 8233) ++ r = '\\' :: 'u' :: '2' :: '0' :: '2' :: '9' :: r from by
      rw [show escChar (Char.ofNat 8233) = ['\\', 'u', '2', '0', '2', '9'] from by decide]; rfl]
    have hu : unesc ('\\' :: 'u' :: '2' :: '0' :: '2' :: '9' :: r)
        = (unesc r).map fun l =>
            Char.ofNat (4096 * hexVal '2' + 256 * hexVal '0' + 16 * hexVal '2' + hexVal '9') :: l := by
      rw [unesc.eq_def]; rfl
    rw [hu, show Char.ofNat (4096 * hexVal '2' + 256 * hexVal '0' + 16 * hexVal '2' + hexVal '9') = Char.ofNat 8233 from by decide]
  · have hesc : escChar c = [c] := by
      simp [escChar, h1, h2, h3, h4, h5, h6, h7, h8, h9, h10, h11]
    rw [hesc]
    exact unesc_cons_of_ne c r h2

theorem unesc_escStr (s : List Char) (r : List Char) :
    unesc (escStr s ++ r) = (unesc r).map fun l => s ++ l := by
  induction s generalizing r with
  | nil =>
    simp only [escStr, List.flatMap_nil, List.nil_append]
    cases h : unesc r <;> simp
  | cons c cs ih =>
    simp only [escStr, List.flatMap_cons, List.append_assoc]
    rw [show cs.flatMap escChar = escStr cs from rfl]
    rw [unesc_escChar, ih]
    cases h : unesc r <;> simp

theorem escStr_injective (s1 s2 : List Char) (h : escStr s1 = escStr s2) : s1 = s2 := by
  have h1 := unesc_escStr s1 []
  have h2 := unesc_escStr s2 []
  rw [List.append_nil] at h1 h2
  rw [h] at h1
  rw [h1] at h2
  have h3 : unesc ([] : List Char) = some [] := rfl
  rw [h3] at h2
  simpa using h2

theorem errMessage_title_inj (s1 s2 : Nat) (t1 t2 : String)
    (h : errMessage (mkSimpleError s1 t1) = errMessage (mkSimpleError s2 t2)) : t1 = t2 := by
  simp only [errMessage, mkSimpleError, optField] at h
  simp only [show escStr "".data = [] from rfl, if_pos rfl] at h
  simp only [List.append_assoc, List.nil_append, List.append_nil] at h
  have h2 := List.append_cancel_left (List.append_cancel_left h)
  have h3 := List.append_cancel_right h2
  exact String.ext (escStr_injective _ _ h3)

theorem gtmIs_iff (e : GtmError) (target : GoErr) :
    gtmIs e target = true ↔
      (errorsIsNotFound target = true ∧ e.statusCode = 404) ∨
      (∃ t, target = GoErr.typed t ∧ t.statusCode = e.statusCode ∧ errMessage t = errMessage e) := by
  unfold gtmIs
  split_ifs with h
  · simp only [Bool.and_eq_true, beq_iff_eq] at h
    simp [h]
  · simp only [Bool.and_eq_true, beq_iff_eq, not_and] at h
    cases target with
    | notFound =>
      simp only [errorsIsNotFound] at h ⊢
      simp [h]
    | typed t =>
      constructor
      · intro hx
        by_cases hs : e.statusCode = t.statusCode
        · have hmsg : errMessage e = errMessage t := by
            simp [bne, hs] at hx
            exact hx
          right
          exact ⟨t, rfl, hs.symm, hmsg.symm⟩
        · exfalso
          simp [bne, hs] at hx
      · rintro (⟨hnf, h404⟩ | ⟨t2, ht2, hs, hmsg⟩)
        · exact absurd h404 (h hnf)
        · have ht : t2 = t := by
            injection ht2 with hh
            exact hh.symm
          subst ht
          simp [bne, hs, hmsg]
    | plain m =>
      simp [errorsIsNotFound]

theorem save_short_circuit (cidr : CidrMap) (p : GtmClient) (d : String)
    (env : Env CidrMapResponse) (msg : String) (h : cidr.validate = some msg) :
    CidrMap.save cidr p d env
      = ⟨p, Except.error (OpErr.validationMsg "CidrMap validation failed." msg), []⟩ := by
  simp [CidrMap.save, h]

theorem deleteCidrMap_short_circuit (cidr : CidrMap) (p : GtmClient) (d : String)
    (env : Env ResponseBody) (msg : String) (h : cidr.validate = some msg) :
    deleteCidrMap p cidr d env
      = ⟨p, Except.error (OpErr.validationMsg "CidrMap validation failed." msg), []⟩ := by
  simp [deleteCidrMap, h]

theorem listCidrMaps_ok (p : GtmClient) (d : String) (env : Env CidrMapList)
    (resp : Resp CidrMapList) (hreq : env.reqErr = none) (hexec : env.exec = Except.ok resp)
    (hs : resp.status = 200) :
    (listCidrMaps p d env).result = Except.ok resp.decoded.cidrMapItems := by
  simp [listCidrMaps, hreq, hexec, hs]

theorem getCidrMap_ok (p : GtmClient) (n d : String) (env : Env CidrMap)
    (resp : Resp CidrMap) (hreq : env.reqErr = none) (hexec : env.exec = Except.ok resp)
    (hs : resp.status = 200) :
    (getCidrMap p n d env).result = Except.ok resp.decoded := by
  simp [getCidrMap, hreq, hexec, hs]

theorem save_ok (cidr : CidrMap) (p : GtmClient) (d : String) (env : Env CidrMapResponse)
    (resp : Resp CidrMapResponse) (hv : cidr.validate = none) (hreq : env.reqErr = none)
    (hexec : env.exec = Except.ok resp) (hs : resp.status = 200 ∨ resp.status = 201) :
    (CidrMap.save cidr p d env).result = Except.ok resp.decoded := by
  rcases hs with hs | hs <;> simp [CidrMap.save, hv, hreq, hexec, hs]

theorem getCidrMap_err (p : GtmClient) (n d : String) (env : Env CidrMap)
    (resp : Resp CidrMap) (hreq : env.reqErr = none) (hexec : env.exec = Except.ok resp)
    (hs : resp.status ≠ 200) :
    (getCidrMap p n d env).result
      = Except.error (OpErr.gtmAPI (gtmMapError resp.status resp.errBody)) := by
  simp [getCidrMap, hreq, hexec, hs]

theorem listCidrMaps_err (p : GtmClient) (d : String) (env : Env CidrMapList)
    (resp : Resp CidrMapList) (hreq : env.reqErr = none) (hexec : env.exec = Except.ok resp)
    (hs : resp.status ≠ 200) :
    (listCidrMaps p d env).result
      = Except.error (OpErr.gtmAPI (gtmMapError resp.status resp.errBody)) := by
  simp [listCidrMaps, hreq, hexec, hs]

theorem getCidrMap_trace (p : GtmClient) (n d : String) (env : Env CidrMap)
    (hreq : env.reqErr = none) :
    (getCidrMap p n d env).trace
      = [⟨some ⟨"GET", "/config-gtm/v1/domains/" ++ d ++ "/cidr-maps/" ++ n⟩, false⟩] := by
  rcases env with ⟨pe, re, ex⟩
  subst hreq
  cases ex with
  | error m => simp [getCidrMap]
  | ok resp => by_cases hs : resp.status = 200 <;> simp [getCidrMap, hs]

theorem listCidrMaps_trace (p : GtmClient) (d : String) (env : Env CidrMapList)
    (hreq : env.reqErr = none) :
    (listCidrMaps p d env).trace
      = [⟨some ⟨"GET", "/config-gtm/v1/domains/" ++ d ++ "/cidr-maps"⟩, false⟩] := by
  rcases env with ⟨pe, re, ex⟩
  subst hreq
  cases ex with
  | error m => simp [listCidrMaps]
  | ok resp => by_cases hs : resp.status = 200 <;> simp [listCidrMaps, hs]

theorem listCidrMaps_client (p : GtmClient) (d : String) (env : Env CidrMapList) :
    (listCidrMaps p d env).client = p := by
  rcases env with ⟨pe, re, ex⟩
  cases re <;> cases ex <;> simp [listCidrMaps] <;> split <;> rfl

theorem listDeactivations_short_circuit (e : EwClient)
    (params : EdgeWorkerListDeactivationsRequest)
    (env : Env EdgeWorkerListDeactivationsResponse)
    (h : ewListDeactivationsValidate params ≠ []) :
    listDeactivations e params env
      = ⟨e, Except.error (OpErr.validationFields "list deactivations"
          (ewListDeactivationsValidate params)), []⟩ := by
  simp [listDeactivations, h]

theorem deactivateVersion_short_circuit (e : EwClient)
    (params : EdgeWorkerDeactivateVersionRequest) (env : Env Deactivation)
    (h : ewDeactivateVersionValidate params ≠ []) :
    deactivateVersion e params env
      = ⟨e, Except.error (OpErr.validationFields "deactivate version"
          (ewDeactivateVersionValidate params)), []⟩ := by
  simp [deactivateVersion, h]

theorem getDeactivation_short_circuit (e : EwClient)
    (params : EdgeWorkerGetDeactivationRequest) (env : Env Deactivation)
    (h : ewGetDeactivationValidate params ≠ []) :
    getDeactivation e params env
      = ⟨e, Except.error (OpErr.validationFields "get deactivation"
          (ewGetDeactivationValidate params)), []⟩ := by
  simp [getDeactivation, h]

theorem deletePolicyProperty_short_circuit (c : CloudletsClient)
    (params : DeletePolicyPropertyRequest) (env : Env Unit)
    (h : deletePolicyPropertyValidate params ≠ []) :
    deletePolicyProperty c params env
      = ⟨c, Except.error (OpErr.validationFields "delete policy property"
          (deletePolicyPropertyValidate params)), []⟩ := by
  simp [deletePolicyProperty, h]

theorem getEdgeHostnames_short_circuit (p : PapiClient) (params : GetEdgeHostnamesRequest)
    (env : Env GetEdgeHostnamesResponse) (h : getEdgeHostnamesValidate params ≠ []) :
    getEdgeHostnames p params env
      = ⟨p, Except.error (OpErr.validationFields "" (getEdgeHostnamesValidate params)), []⟩ := by
  simp [getEdgeHostnames, h]

theorem createEdgeHostname_short_circuit (p : PapiClient) (r : CreateEdgeHostnameRequest)
    (env : Env CreateEdgeHostnameResponse) (fetchID : String → Except String String)
    (h : createEhRequestValidate r ≠ []) :
    createEdgeHostname p r env fetchID
      = ⟨p, Except.error (OpErr.validationFields "" (createEhRequestValidate r)), []⟩ := by
  simp [createEdgeHostname, h]

theorem listDeactivations_ok (e : EwClient) (params : EdgeWorkerListDeactivationsRequest)
    (env : Env EdgeWorkerListDeactivationsResponse)
    (resp : Resp EdgeWorkerListDeactivationsResponse)
    (hv : ewListDeactivationsValidate params = []) (hp : env.parseErr = none)
    (hreq : env.reqErr = none) (hexec : env.exec = Except.ok resp) (hs : resp.status = 200) :
    (listDeactivations e params env).result = Except.ok resp.decoded := by
  simp [listDeactivations, hv, hp, hreq, hexec, hs]

theorem deactivateVersion_ok (e : EwClient) (params : EdgeWorkerDeactivateVersionRequest)
    (env : Env Deactivation) (resp : Resp Deactivation)
    (hv : ewDeactivateVersionValidate params = []) (hp : env.parseErr = none)
    (hreq : env.reqErr = none) (hexec : env.exec = Except.ok resp) (hs : resp.status = 201) :
    (deactivateVersion e params env).result = Except.ok resp.decoded := by
  simp [deactivateVersion, hv, hp, hreq, hexec, hs]

theorem getDeactivation_ok (e : EwClient) (params : EdgeWorkerGetDeactivationRequest)
    (env : Env Deactivation) (resp : Resp Deactivation)
    (hv : ewGetDeactivationValidate params = []) (hp : env.parseErr = none)
    (hexec : env.exec = Except.ok resp) (hs : resp.status = 200) :
    (getDeactivation e params env).result = Except.ok resp.decoded := by
  simp [getDeactivation, hv, hp, hexec, hs]

theorem deletePolicyProperty_ok (c : CloudletsClient) (params : DeletePolicyPropertyRequest)
    (env : Env Unit) (resp : Resp Unit)
    (hv : deletePolicyPropertyValidate params = []) (hp : env.parseErr = none)
    (hreq : env.reqErr = none) (hexec : env.exec = Except.ok resp) (hs : resp.status = 204) :
    (deletePolicyProperty c params env).result = Except.ok () := by
  simp [deletePolicyProperty, hv, hp, hreq, hexec, hs]

theorem listDeactivations_err (e : EwClient) (params : EdgeWorkerListDeactivationsRequest)
    (env : Env EdgeWorkerListDeactivationsResponse)
    (resp : Resp EdgeWorkerListDeactivationsResponse)
    (hv : ewListDeactivationsValidate params = []) (hp : env.parseErr = none)
    (hreq : env.reqErr = none) (hexec : env.exec = Except.ok resp) (hs : resp.status ≠ 200) :
    (listDeactivations e params env).result
      = Except.error (OpErr.wrappedAPI "list deactivations"
          (ewMapError resp.status resp.errBody)) := by
  simp [listDeactivations, hv, hp, hreq, hexec, hs]

theorem deletePolicyProperty_err (c : CloudletsClient) (params : DeletePolicyPropertyRequest)
    (env : Env Unit) (resp : Resp Unit)
    (hv : deletePolicyPropertyValidate params = []) (hp : env.parseErr = none)
    (hreq : env.reqErr = none) (hexec : env.exec = Except.ok resp) (hs : resp.status ≠ 204) :
    (deletePolicyProperty c params env).result
      = Except.error (OpErr.statusOnly "delete policy property" resp.status) := by
  simp [deletePolicyProperty, hv, hp, hreq, hexec, hs]

theorem getEdgeHostnames_notFound (p : PapiClient) (params : GetEdgeHostnamesRequest)
    (env : Env GetEdgeHostnamesResponse) (resp : Resp GetEdgeHostnamesResponse)
    (hv : getEdgeHostnamesValidate params = []) (hreq : env.reqErr = none)
    (hexec : env.exec = Except.ok resp) (hs : resp.status = 404) :
    (getEdgeHostnames p params env).result
      = Except.error (OpErr.notFoundURL
          ("/papi/v1/edgehostnames?contractId=" ++ params.contractID
            ++ "&groupId=" ++ params.groupID
            ++ (if params.options ≠ []
                then "&options=" ++ String.intercalate "," params.options else ""))) := by
  simp [getEdgeHostnames, hv, hreq, hexec, hs]

theorem getEdgeHostnames_err (p : PapiClient) (params : GetEdgeHostnamesRequest)
    (env : Env GetEdgeHostnamesResponse) (resp : Resp GetEdgeHostnamesResponse)
    (hv : getEdgeHostnamesValidate params = []) (hreq : env.reqErr = none)
    (hexec : env.exec = Except.ok resp) (h404 : resp.status ≠ 404) (hs : resp.status ≠ 200) :
    (getEdgeHostnames p params env).result
      = Except.error (OpErr.sessionAPI (sessNewAPIError resp.status resp.errBody)) := by
  simp [getEdgeHostnames, hv, hreq, hexec, h404, hs]

theorem createEdgeHostname_fetch_err (p : PapiClient) (r : CreateEdgeHostnameRequest)
    (env : Env CreateEdgeHostnameResponse) (fetchID : String → Except String String)
    (resp : Resp CreateEdgeHostnameResponse) (msg : String)
    (hv : createEhRequestValidate r = []) (hreq : env.reqErr = none)
    (hexec : env.exec = Except.ok resp) (hs : resp.status = 201)
    (hf : fetchID resp.decoded.edgeHostnameLink = Except.error msg) :
    (createEdgeHostname p r env fetchID).result
      = Except.error (OpErr.invalidLocation msg) := by
  simp [createEdgeHostname, hv, hreq, hexec, hs, hf]

theorem createEdgeHostname_fetch_ok (p : PapiClient) (r : CreateEdgeHostnameRequest)
    (env : Env CreateEdgeHostnameResponse) (fetchID : String → Except String String)
    (resp : Resp CreateEdgeHostnameResponse) (ehID : String)
    (hv : createEhRequestValidate r = []) (hreq : env.reqErr = none)
    (hexec : env.exec = Except.ok resp) (hs : resp.status = 201)
    (hf : fetchID resp.decoded.edgeHostnameLink = Except.ok ehID) :
    (createEdgeHostname p r env fetchID).result
      = Except.ok { resp.decoded with edgeHostnameID := ehID } := by
  simp [createEdgeHostname, hv, hreq, hexec, hs, hf]

theorem createEdgeHostname_calls (p : PapiClient) (r : CreateEdgeHostnameRequest)
    (env : Env CreateEdgeHostnameResponse) (fetchID : String → Except String String)
    (hv : createEhRequestValidate r = []) (hreq : env.reqErr = none) :
    (createEdgeHostname p r env fetchID).trace ≠ [] := by
  rcases env with ⟨pe, re, ex⟩
  subst hreq
  cases ex with
  | error m => simp [createEdgeHostname, hv]
  | ok resp =>
    by_cases hs : resp.status = 201
    · cases hf : fetchID resp.decoded.edgeHostnameLink <;>
        simp [createEdgeHostname, hv, hs, hf]
    · simp [createEdgeHostname, hv, hs]

theorem getDeactivation_reqErr_ignored (e : EwClient)
    (params : EdgeWorkerGetDeactivationRequest) (env : Env Deactivation) (msg : String)
    (hv : ewGetDeactivationValidate params = []) (hp : env.parseErr = none)
    (hreq : env.reqErr = some msg) :
    (getDeactivation e params env).trace = [⟨none, false⟩] ∧
    getDeactivation e params env
      = getDeactivation e params { parseErr := none, reqErr := some "", exec := env.exec } ∧
    ∀ op m2, (getDeactivation e params env).result ≠ Except.error (OpErr.reqConstruct op m2) := by
  rcases env with ⟨pe, re, ex⟩
  simp only at hp hreq
  subst hp
  subst hreq
  refine ⟨?_, ?_, ?_⟩
  · cases ex with
    | error m => simp [getDeactivation, hv]
    | ok resp => by_cases hs : resp.status = 200 <;> simp [getDeactivation, hv, hs]
  · cases ex with
    | error m => simp [getDeactivation, hv]
    | ok resp => by_cases hs : resp.status = 200 <;> simp [getDeactivation, hv, hs]
  · intro op m2
    cases ex with
    | error m => simp [getDeactivation, hv]
    | ok resp => by_cases hs : resp.status = 200 <;> simp [getDeactivation, hv, hs]

theorem getCidrMap_client (p : GtmClient) (n d : String) (env : Env CidrMap) :
    (getCidrMap p n d env).client = p := by
  unfold getCidrMap
  repeat' first | rfl | split
  all_goals simp only [ne_eq]
  all_goals split <;> rfl

theorem save_client (cidr : CidrMap) (p : GtmClient) (d : String) (env : Env CidrMapResponse) :
    (CidrMap.save cidr p d env).client = p := by
  unfold CidrMap.save
  repeat' first | rfl | split
  all_goals simp only [ne_eq]
  all_goals split <;> rfl

theorem createCidrMap_client (p : GtmClient) (cidr : CidrMap) (d : String)
    (env : Env CidrMapResponse) : (createCidrMap p cidr d env).client = p := by
  unfold createCidrMap
  exact save_client cidr p d env

theorem updateCidrMap_client (p : GtmClient) (cidr : CidrMap) (d : String)
    (env : Env CidrMapResponse) : (updateCidrMap p cidr d env).client = p := by
  unfold updateCidrMap
  have h := save_client cidr p d env
  cases hres : (cidr.save p d env).result <;> simp [hres, h]

theorem deleteCidrMap_client (p : GtmClient) (cidr : CidrMap) (d : String)
    (env : Env ResponseBody) : (deleteCidrMap p cidr d env).client = p := by
  unfold deleteCidrMap
  repeat' first | rfl | split
  all_goals simp only [ne_eq]
  all_goals split <;> rfl

theorem listDeactivations_client (e : EwClient) (params : EdgeWorkerListDeactivationsRequest)
    (env : Env EdgeWorkerListDeactivationsResponse) :
    (listDeactivations e params env).client = e := by
  unfold listDeactivations
  repeat' first | rfl | split
  all_goals simp only [ne_eq]
  all_goals split <;> rfl

theorem deactivateVersion_client (e : EwClient) (params : EdgeWorkerDeactivateVersionRequest)
    (env : Env Deactivation) : (deactivateVersion e params env).client = e := by
  unfold deactivateVersion
  repeat' first | rfl | split
  all_goals simp only [ne_eq]
  all_goals split <;> rfl

theorem getDeactivation_client (e : EwClient) (params : EdgeWorkerGetDeactivationRequest)
    (env : Env Deactivation) : (getDeactivation e params env).client = e := by
  unfold getDeactivation
  repeat' first | rfl | split
  all_goals simp only [ne_eq]
  all_goals split <;> rfl

theorem deletePolicyProperty_client (c : CloudletsClient)
    (params : DeletePolicyPropertyRequest) (env : Env Unit) :
    (deletePolicyProperty c params env).client = c := by
  unfold deletePolicyProperty
  repeat' first | rfl | split
  all_goals simp only [ne_eq]
  all_goals split <;> rfl

theorem getEdgeHostnames_client (p : PapiClient) (params : GetEdgeHostnamesRequest)
    (env : Env GetEdgeHostnamesResponse) : (getEdgeHostnames p params env).client = p := by
  unfold getEdgeHostnames
  repeat' first | rfl | split
  all_goals simp only [ne_eq]
  all_goals split <;> rfl

theorem getEdgeHostname_client (p : PapiClient) (params : GetEdgeHostnameRequest)
    (env : Env GetEdgeHostnamesResponse) : (getEdgeHostname p params env).client = p := by
  unfold getEdgeHostname
  repeat' first | rfl | split
  all_goals simp only [ne_eq]
  all_goals split <;> rfl

theorem createEdgeHostname_client (p : PapiClient) (r : CreateEdgeHostnameRequest)
    (env : Env CreateEdgeHostnameResponse) (fetchID : String → Except String String) :
    (createEdgeHostname p r env fetchID).client = p := by
  unfold createEdgeHostname
  repeat' first | rfl | split
  all_goals simp only [ne_eq]
  all_goals split <;> rfl

theorem mem_fieldErr (k k2 m : String) (o : Option String) :
    (k2, m) ∈ fieldErr k o ↔ k2 = k ∧ o = some m := by
  cases o <;> simp [fieldErr] <;> tauto

theorem networkRule_eq_none (n : String) :
    networkRule n = none ↔ n ≠ "" ∧ (n = "PRODUCTION" ∨ n = "STAGING") := by
  by_cases h : n = ""
  · simp [networkRule, requiredString, h]
  · by_cases hc : n = "PRODUCTION" ∨ n = "STAGING" <;>
      simp [networkRule, requiredString, inString, h, hc]

theorem deactivateVersion_collects_edgeWorkerID (r : EdgeWorkerDeactivateVersionRequest) :
    (∃ m, ("EdgeWorkerID", m) ∈ ewDeactivateVersionValidate r) ↔ r.edgeWorkerID = 0 := by
  have hA : ¬ ("EdgeWorkerID" : String) = "Body.Network" := by decide
  have hB : ¬ ("EdgeWorkerID" : String) = "Body.Version" := by decide
  simp only [ewDeactivateVersionValidate, List.mem_append, mem_fieldErr, hA, hB,
    false_and, false_or, true_and, eq_self_iff_true]
  by_cases h : r.edgeWorkerID = 0 <;> simp [requiredInt, h]

theorem deactivateVersion_collects_version (r : EdgeWorkerDeactivateVersionRequest) :
    (∃ m, ("Body.Version", m) ∈ ewDeactivateVersionValidate r) ↔ r.body.version = "" := by
  have hA : ¬ ("Body.Version" : String) = "Body.Network" := by decide
  have hB : ¬ ("Body.Version" : String) = "EdgeWorkerID" := by decide
  simp only [ewDeactivateVersionValidate, List.mem_append, mem_fieldErr, hA, hB,
    false_and, false_or, or_false, true_and, eq_self_iff_true]
  by_cases h : r.body.version = "" <;> simp [requiredString, h]

theorem deactivateVersion_collects_network (r : EdgeWorkerDeactivateVersionRequest) :
    (∃ m, ("Body.Network", m) ∈ ewDeactivateVersionValidate r)
      ↔ (r.body.network = "" ∨ (r.body.network ≠ "PRODUCTION" ∧ r.body.network ≠ "STAGING")) := by
  have hA : ¬ ("Body.Network" : String) = "Body.Version" := by decide
  have hB : ¬ ("Body.Network" : String) = "EdgeWorkerID" := by decide
  simp only [ewDeactivateVersionValidate, List.mem_append, mem_fieldErr, hA, hB,
    false_and, false_or, or_false, true_and, eq_self_iff_true]
  by_cases he : r.body.network = ""
  · simp [networkRule, requiredString, he]
  · by_cases hc : r.body.network = "PRODUCTION" ∨ r.body.network = "STAGING"
    · have hn := (networkRule_eq_none r.body.network).mpr ⟨he, hc⟩
      rcases hc with hc | hc <;> rw [hc] at hn <;> simp [hn, he, hc]
    · push_neg at hc
      have hn : networkRule r.body.network
          = some ("value \x27" ++ r.body.network
            ++ "\x27 is invalid. Must be one of: \x27STAGING\x27 or \x27PRODUCTION\x27") := by
        simp [networkRule, requiredString, inString, he, hc.1, hc.2]
      simp [hn, he, hc.1, hc.2]

theorem cidrMap_validate_first_only (c : CidrMap) (h : c.name = "") :
    c.validate = some "CidrMap is missing Name" := by
  simp [CidrMap.validate, h]

/-! ## Claim theorems -/

/-- C1: for every resource operation that takes a request struct with a `Validate()`
contract (`save` — the common path of CreateCidrMap/UpdateCidrMap —, DeleteCidrMap,
ListDeactivations, DeactivateVersion, GetDeactivation, DeletePolicyProperty,
GetEdgeHostnames, CreateEdgeHostname), a validation failure makes the operation
return a nil result and a non-nil error, and the session's `Exec` is never invoked:
the dispatch trace is empty. -/
theorem validation_failure_short_circuits
    (p : GtmClient) (cidr : CidrMap) (d vmsg : String)
    (envS envU : Env CidrMapResponse) (envDel : Env ResponseBody)
    (hcv : cidr.validate = some vmsg)
    (ew : EwClient) (r1 : EdgeWorkerListDeactivationsRequest)
    (env1 : Env EdgeWorkerListDeactivationsResponse)
    (h1 : ewListDeactivationsValidate r1 ≠ [])
    (r2 : EdgeWorkerDeactivateVersionRequest) (env2 : Env Deactivation)
    (h2 : ewDeactivateVersionValidate r2 ≠ [])
    (r3 : EdgeWorkerGetDeactivationRequest) (env3 : Env Deactivation)
    (h3 : ewGetDeactivationValidate r3 ≠ [])
    (cl : CloudletsClient) (r4 : DeletePolicyPropertyRequest) (env4 : Env Unit)
    (h4 : deletePolicyPropertyValidate r4 ≠ [])
    (pp : PapiClient) (r5 : GetEdgeHostnamesRequest) (env5 : Env GetEdgeHostnamesResponse)
    (h5 : getEdgeHostnamesValidate r5 ≠ [])
    (r6 : CreateEdgeHostnameRequest) (env6 : Env CreateEdgeHostnameResponse)
    (fetchID : String → Except String String) (h6 : createEhRequestValidate r6 ≠ []) :
    CidrMap.save cidr p d envS
        = ⟨p, Except.error (OpErr.validationMsg "CidrMap validation failed." vmsg), []⟩ ∧
    createCidrMap p cidr d envS
        = ⟨p, Except.error (OpErr.validationMsg "CidrMap validation failed." vmsg), []⟩ ∧
    updateCidrMap p cidr d envU
        = ⟨p, Except.error (OpErr.validationMsg "CidrMap validation failed." vmsg), []⟩ ∧
    deleteCidrMap p cidr d envDel
        = ⟨p, Except.error (OpErr.validationMsg "CidrMap validation failed." vmsg), []⟩ ∧
    listDeactivations ew r1 env1
        = ⟨ew, Except.error (OpErr.validationFields "list deactivations"
            (ewListDeactivationsValidate r1)), []⟩ ∧
    deactivateVersion ew r2 env2
        = ⟨ew, Except.error (OpErr.validationFields "deactivate version"
            (ewDeactivateVersionValidate r2)), []⟩ ∧
    getDeactivation ew r3 env3
        = ⟨ew, Except.error (OpErr.validationFields "get deactivation"
            (ewGetDeactivationValidate r3)), []⟩ ∧
    deletePolicyProperty cl r4 env4
        = ⟨cl, Except.error (OpErr.validationFields "delete policy property"
            (deletePolicyPropertyValidate r4)), []⟩ ∧
    getEdgeHostnames pp r5 env5
        = ⟨pp, Except.error (OpErr.validationFields "" (getEdgeHostnamesValidate r5)), []⟩ ∧
    createEdgeHostname pp r6 env6 fetchID
        = ⟨pp, Except.error (OpErr.validationFields "" (createEhRequestValidate r6)), []⟩ := by
  refine ⟨save_short_circuit _ _ _ _ _ hcv, save_short_circuit _ _ _ _ _ hcv, ?_,
    deleteCidrMap_short_circuit _ _ _ _ _ hcv,
    listDeactivations_short_circuit _ _ _ h1,
    deactivateVersion_short_circuit _ _ _ h2,
    getDeactivation_short_circuit _ _ _ h3,
    deletePolicyProperty_short_circuit _ _ _ h4,
    getEdgeHostnames_short_circuit _ _ _ h5,
    createEdgeHostname_short_circuit _ _ _ fetchID h6⟩
  have h := save_short_circuit cidr p d envU vmsg hcv
  simp [updateCidrMap, h]

/-- C1 witness: a CidrMap missing both Name and DefaultDatacenter, and an
EdgeWorkers deactivate-version request with zero ID and empty payload, each
short-circuit with an empty dispatch trace. -/
theorem validation_failure_short_circuits_witness :
    CidrMap.save ⟨none, [], "", []⟩ ⟨0⟩ "example.akadns.net" ⟨none, none, Except.error "x"⟩
      = ⟨⟨0⟩, Except.error (OpErr.validationMsg "CidrMap validation failed."
          "CidrMap is missing Name"), []⟩ :=
  (validation_failure_short_circuits ⟨0⟩ ⟨none, [], "", []⟩ "example.akadns.net"
    "CidrMap is missing Name" ⟨none, none, Except.error "x"⟩ ⟨none, none, Except.error "x"⟩
    ⟨none, none, Except.error "x"⟩ (by decide)
    ⟨1⟩ ⟨0, ""⟩ ⟨none, none, Except.error "x"⟩ (by decide)
    ⟨0, ⟨"", "", ""⟩⟩ ⟨none, none, Except.error "x"⟩ (by decide)
    ⟨0, 0⟩ ⟨none, none, Except.error "x"⟩ (by decide)
    ⟨2⟩ ⟨0, 0, ""⟩ ⟨none, none, Except.error "x"⟩ (by decide)
    ⟨3, false⟩ ⟨"", "", []⟩ ⟨none, none, Except.error "x"⟩ (by decide)
    ⟨"", "", [], ⟨"", "", "", false, "", 0, "", 0, []⟩⟩ ⟨none, none, Except.error "x"⟩
    fetchIDModel (by decide)).1

/-- C2 (amended): for every response whose status is in the operation's expected
success set (200 for ListDeactivations/GetDeactivation/ListCidrMaps/GetCidrMap, 201
for DeactivateVersion, 204 for DeletePolicyProperty, 200 or 201 for the CidrMap
`save`), when `Exec` returns without transport error the operation returns the
decoded response value and a nil error; for CreateEdgeHostname (201) the operation
returns the decoded response with `EdgeHostnameID` additionally set to the ID
extracted from `EdgeHostnameLink`, and a nil error provided that extraction
succeeds. -/
theorem success_status_returns_decoded :
    (∀ (e : EwClient) (r : EdgeWorkerListDeactivationsRequest)
       (env : Env EdgeWorkerListDeactivationsResponse) (resp : _),
       ewListDeactivationsValidate r = [] → env.parseErr = none → env.reqErr = none →
       env.exec = Except.ok resp → resp.status = 200 →
       (listDeactivations e r env).result = Except.ok resp.decoded) ∧
    (∀ (e : EwClient) (r : EdgeWorkerGetDeactivationRequest) (env : Env Deactivation)
       (resp : _),
       ewGetDeactivationValidate r = [] → env.parseErr = none →
       env.exec = Except.ok resp → resp.status = 200 →
       (getDeactivation e r env).result = Except.ok resp.decoded) ∧
    (∀ (e : EwClient) (r : EdgeWorkerDeactivateVersionRequest) (env : Env Deactivation)
       (resp : _),
       ewDeactivateVersionValidate r = [] → env.parseErr = none → env.reqErr = none →
       env.exec = Except.ok resp → resp.status = 201 →
       (deactivateVersion e r env).result = Except.ok resp.decoded) ∧
    (∀ (p : GtmClient) (d : String) (env : Env CidrMapList) (resp : _),
       env.reqErr = none → env.exec = Except.ok resp → resp.status = 200 →
       (listCidrMaps p d env).result = Except.ok resp.decoded.cidrMapItems) ∧
    (∀ (p : GtmClient) (n d : String) (env : Env CidrMap) (resp : _),
       env.reqErr = none → env.exec = Except.ok resp → resp.status = 200 →
       (getCidrMap p n d env).result = Except.ok resp.decoded) ∧
    (∀ (cidr : CidrMap) (p : GtmClient) (d : String) (env : Env CidrMapResponse)
       (resp : _),
       cidr.validate = none → env.reqErr = none → env.exec = Except.ok resp →
       (resp.status = 200 ∨ resp.status = 201) →
       (CidrMap.save cidr p d env).result = Except.ok resp.decoded) ∧
    (∀ (c : CloudletsClient) (r : DeletePolicyPropertyRequest) (env : Env Unit)
       (resp : _),
       deletePolicyPropertyValidate r = [] → env.parseErr = none → env.reqErr = none →
       env.exec = Except.ok resp → resp.status = 204 →
       (deletePolicyProperty c r env).result = Except.ok ()) ∧
    (∀ (p : PapiClient) (r : CreateEdgeHostnameRequest)
       (env : Env CreateEdgeHostnameResponse) (fetchID : String → Except String String)
       (resp : _) (ehID : String),
       createEhRequestValidate r = [] → env.reqErr = none → env.exec = Except.ok resp →
       resp.status = 201 → fetchID resp.decoded.edgeHostnameLink = Except.ok ehID →
       (createEdgeHostname p r env fetchID).result
         = Except.ok { resp.decoded with edgeHostnameID := ehID }) := by
  refine ⟨?_, ?_, ?_, ?_, ?_, ?_, ?_, ?_⟩
  · intro e r env resp hv hp hreq hexec hs
    exact listDeactivations_ok e r env resp hv hp hreq hexec hs
  · intro e r env resp hv hp hexec hs
    exact getDeactivation_ok e r env resp hv hp hexec hs
  · intro e r env resp hv hp hreq hexec hs
    exact deactivateVersion_ok e r env resp hv hp hreq hexec hs
  · intro p d env resp hreq hexec hs
    exact listCidrMaps_ok p d env resp hreq hexec hs
  · intro p n d env resp hreq hexec hs
    exact getCidrMap_ok p n d env resp hreq hexec hs
  · intro cidr p d env resp hv hreq hexec hs
    exact save_ok cidr p d env resp hv hreq hexec hs
  · intro c r env resp hv hp hreq hexec hs
    exact deletePolicyProperty_ok c r env resp hv hp hreq hexec hs
  · intro p r env fetchID resp ehID hv hreq hexec hs hf
    exact createEdgeHostname_fetch_ok p r env fetchID resp ehID hv hreq hexec hs hf

/-- C2 counterexample: with a 201 response, CreateEdgeHostname does not return the
decoded response value unchanged — the returned value has `EdgeHostnameID` filled
in from the link, so it differs from the value `Exec` decoded. -/
theorem createEdgeHostname_alters_decoded_response :
    (createEdgeHostname ⟨0, false⟩
        ⟨"ctr_1", "grp_1", [], ⟨"prd_1", "www", "edgesuite.net", false, "", 0, "IPV4", 0, []⟩⟩
        ⟨none, none, Except.ok ⟨201, ⟨"/papi/v1/edgehostnames/eh_123", ""⟩,
          ErrBody.invalid "" ""⟩⟩ fetchIDModel).result
      = Except.ok ⟨"/papi/v1/edgehostnames/eh_123", "eh_123"⟩ ∧
    (⟨"/papi/v1/edgehostnames/eh_123", "eh_123"⟩ : CreateEdgeHostnameResponse)
      ≠ ⟨"/papi/v1/edgehostnames/eh_123", ""⟩ := by
  constructor
  · have hf : fetchIDModel "/papi/v1/edgehostnames/eh_123" = Except.ok "eh_123" := by
      show Except.ok _ = _
      rw [show String.mk (lastSegAux "/papi/v1/edgehostnames/eh_123".data []) = "eh_123"
        from by decide]
    have h := createEdgeHostname_fetch_ok ⟨0, false⟩
      ⟨"ctr_1", "grp_1", [], ⟨"prd_1", "www", "edgesuite.net", false, "", 0, "IPV4", 0, []⟩⟩
      ⟨none, none, Except.ok ⟨201, ⟨"/papi/v1/edgehostnames/eh_123", ""⟩,
        ErrBody.invalid "" ""⟩⟩ fetchIDModel
      ⟨201, ⟨"/papi/v1/edgehostnames/eh_123", ""⟩, ErrBody.invalid "" ""⟩ "eh_123"
      (by decide) rfl rfl rfl hf
    exact h
  · decide

/-- C2 witness: a concrete GetCidrMap call with a 200 response returns the decoded
CidrMap and a nil error. -/
theorem success_status_returns_decoded_witness :
    (getCidrMap ⟨0⟩ "The%20North" "example.akadns.net"
        ⟨none, none, Except.ok ⟨200, ⟨some ⟨"dc1", 3131⟩, [], "The%20North", []⟩,
          ErrBody.invalid "" ""⟩⟩).result
      = Except.ok ⟨some ⟨"dc1", 3131⟩, [], "The%20North", []⟩ :=
  success_status_returns_decoded.2.2.2.2.1 ⟨0⟩ "The%20North" "example.akadns.net"
    ⟨none, none, Except.ok ⟨200, ⟨some ⟨"dc1", 3131⟩, [], "The%20North", []⟩,
      ErrBody.invalid "" ""⟩⟩
    ⟨200, ⟨some ⟨"dc1", 3131⟩, [], "The%20North", []⟩, ErrBody.invalid "" ""⟩ rfl rfl rfl

/-- C3 (amended): for every response whose status is outside the operation's success
set the operation returns a nil result and a non-nil error; for GetCidrMap,
ListCidrMaps and ListDeactivations the error is the mapped typed Error whose status
code equals the HTTP status and whose title/detail come from the body's problem
details when the body carries them; for the papi edge-hostname list the non-404
failure goes through the session error carrying status and title/detail, while its
404 branch returns the not-found sentinel wrapping only the request URL; and
DeletePolicyProperty returns only its operation sentinel with the numeric status
code, never reading the body. -/
theorem failure_status_maps_to_typed_error :
    (∀ (p : GtmClient) (n d : String) (env : Env CidrMap) (resp : _),
       env.reqErr = none → env.exec = Except.ok resp → resp.status ≠ 200 →
       (getCidrMap p n d env).result
           = Except.error (OpErr.gtmAPI (gtmMapError resp.status resp.errBody)) ∧
         (gtmMapError resp.status resp.errBody).statusCode = resp.status ∧
         ∀ ty ti de i b el, resp.errBody = ErrBody.jsonErr ty ti de i b el →
           (gtmMapError resp.status resp.errBody).title = ti ∧
           (gtmMapError resp.status resp.errBody).detail = de) ∧
    (∀ (p : GtmClient) (d : String) (env : Env CidrMapList) (resp : _),
       env.reqErr = none → env.exec = Except.ok resp → resp.status ≠ 200 →
       (listCidrMaps p d env).result
           = Except.error (OpErr.gtmAPI (gtmMapError resp.status resp.errBody)) ∧
         (gtmMapError resp.status resp.errBody).statusCode = resp.status ∧
         ∀ ty ti de i b el, resp.errBody = ErrBody.jsonErr ty ti de i b el →
           (gtmMapError resp.status resp.errBody).title = ti ∧
           (gtmMapError resp.status resp.errBody).detail = de) ∧
    (∀ (e : EwClient) (r : EdgeWorkerListDeactivationsRequest)
       (env : Env EdgeWorkerListDeactivationsResponse) (resp : _),
       ewListDeactivationsValidate r = [] → env.parseErr = none → env.reqErr = none →
       env.exec = Except.ok resp → resp.status ≠ 200 →
       (listDeactivations e r env).result
           = Except.error (OpErr.wrappedAPI "list deactivations"
               (ewMapError resp.status resp.errBody)) ∧
         (ewMapError resp.status resp.errBody).statusCode = resp.status ∧
         ∀ ty ti de i b el, resp.errBody = ErrBody.jsonErr ty ti de i b el →
           (ewMapError resp.status resp.errBody).title = ti ∧
           (ewMapError resp.status resp.errBody).detail = de) ∧
    (∀ (c : CloudletsClient) (r : DeletePolicyPropertyRequest) (env : Env Unit)
       (resp : _),
       deletePolicyPropertyValidate r = [] → env.parseErr = none → env.reqErr = none →
       env.exec = Except.ok resp → resp.status ≠ 204 →
       (deletePolicyProperty c r env).result
         = Except.error (OpErr.statusOnly "delete policy property" resp.status)) ∧
    (∀ (p : PapiClient) (r : GetEdgeHostnamesRequest) (env : Env GetEdgeHostnamesResponse)
       (resp : _),
       getEdgeHostnamesValidate r = [] → env.reqErr = none →
       env.exec = Except.ok resp → resp.status = 404 →
       (getEdgeHostnames p r env).result
         = Except.error (OpErr.notFoundURL
             ("/papi/v1/edgehostnames?contractId=" ++ r.contractID
               ++ "&groupId=" ++ r.groupID
               ++ (if r.options ≠ []
                   then "&options=" ++ String.intercalate "," r.options else "")))) ∧
    (∀ (p : PapiClient) (r : GetEdgeHostnamesRequest) (env : Env GetEdgeHostnamesResponse)
       (resp : _),
       getEdgeHostnamesValidate r = [] → env.reqErr = none →
       env.exec = Except.ok resp → resp.status ≠ 404 → resp.status ≠ 200 →
       (getEdgeHostnames p r env).result
           = Except.error (OpErr.sessionAPI (sessNewAPIError resp.status resp.errBody)) ∧
         (sessNewAPIError resp.status resp.errBody).status = resp.status ∧
         ∀ ty ti de i b el, resp.errBody = ErrBody.jsonErr ty ti de i b el →
           (sessNewAPIError resp.status resp.errBody).title = ti ∧
           (sessNewAPIError resp.status resp.errBody).detail = de) := by
  refine ⟨?_, ?_, ?_, ?_, ?_, ?_⟩
  · intro p n d env resp hreq hexec hs
    refine ⟨getCidrMap_err p n d env resp hreq hexec hs, ?_, ?_⟩
    · cases resp.errBody <;> rfl
    · intro ty ti de i b el hb
      rw [hb]
      exact ⟨rfl, rfl⟩
  · intro p d env resp hreq hexec hs
    refine ⟨listCidrMaps_err p d env resp hreq hexec hs, ?_, ?_⟩
    · cases resp.errBody <;> rfl
    · intro ty ti de i b el hb
      rw [hb]
      exact ⟨rfl, rfl⟩
  · intro e r env resp hv hp hreq hexec hs
    refine ⟨listDeactivations_err e r env resp hv hp hreq hexec hs, ?_, ?_⟩
    · cases resp.errBody <;> rfl
    · intro ty ti de i b el hb
      rw [hb]
      exact ⟨rfl, rfl⟩
  · intro c r env resp hv hp hreq hexec hs
    exact deletePolicyProperty_err c r env resp hv hp hreq hexec hs
  · intro p r env resp hv hreq hexec hs
    exact getEdgeHostnames_notFound p r env resp hv hreq hexec hs
  · intro p r env resp hv hreq hexec h404 hs
    refine ⟨getEdgeHostnames_err p r env resp hv hreq hexec h404 hs, ?_, ?_⟩
    · cases resp.errBody <;> rfl
    · intro ty ti de i b el hb
      rw [hb]
      exact ⟨rfl, rfl⟩

/-- C3 counterexample: a DeletePolicyProperty failure (status 500, problem-details
body with title and detail) yields an error carrying only the sentinel and the
numeric status — neither the body's detail nor its title appears in the message,
against the claim that the message reflects them for this operation. -/
theorem deletePolicyProperty_ignores_error_body :
    (deletePolicyProperty ⟨0⟩ ⟨101, 202, ""⟩
        ⟨none, none, Except.ok ⟨500, (),
          ErrBody.jsonErr "internal_error" "Internal Server Error" "boom" "" "" ""⟩⟩).result
      = Except.error (OpErr.statusOnly "delete policy property" 500) ∧
    hasSub "boom".data
      (opErrMessage (OpErr.statusOnly "delete policy property" 500)).data = false ∧
    hasSub "Internal Server Error".data
      (opErrMessage (OpErr.statusOnly "delete policy property" 500)).data = false := by
  refine ⟨?_, by decide, by decide⟩
  exact deletePolicyProperty_err ⟨0⟩ ⟨101, 202, ""⟩
    ⟨none, none, Except.ok ⟨500, (),
      ErrBody.jsonErr "internal_error" "Internal Server Error" "boom" "" "" ""⟩⟩
    ⟨500, (), ErrBody.jsonErr "internal_error" "Internal Server Error" "boom" "" "" ""⟩
    (by decide) rfl rfl rfl (by decide)

/-- C3 witness: a concrete GetCidrMap 500 with a problem-details body returns the
typed Error carrying status 500 and the body's title/detail. -/
theorem failure_status_maps_to_typed_error_witness :
    (getCidrMap ⟨0⟩ "m1" "example.akadns.net"
        ⟨none, none, Except.ok ⟨500, ⟨none, [], "", []⟩,
          ErrBody.jsonErr "internal_error" "Internal Server Error" "Error fetching geomap"
            "" "" ""⟩⟩).result
      = Except.error (OpErr.gtmAPI
          ⟨"internal_error", "Internal Server Error", "Error fetching geomap", "", "", "",
            500⟩) :=
  (failure_status_maps_to_typed_error.1 ⟨0⟩ "m1" "example.akadns.net"
    ⟨none, none, Except.ok ⟨500, ⟨none, [], "", []⟩,
      ErrBody.jsonErr "internal_error" "Internal Server Error" "Error fetching geomap"
        "" "" ""⟩⟩
    ⟨500, ⟨none, [], "", []⟩,
      ErrBody.jsonErr "internal_error" "Internal Server Error" "Error fetching geomap"
        "" "" ""⟩ rfl rfl (by decide)).1

/-- C4 (amended): `(e *Error).Is(target)` returns true iff (a) target matches the
not-found sentinel — which, through Go's `errors.Is` dispatching into the target's
own `Is` method, any typed `*Error` with status 404 also does — and e's status is
404, or (b) target is a typed Error with equal status code and equal rendered
message. In particular, for Error values carrying only status and title: identical
status and title compare equal, differing status compares unequal, and differing
title compares unequal except when both statuses are 404, where the sentinel rule
makes `Is` return true regardless of the titles. -/
theorem error_is_contract :
    (∀ (e : GtmError) (target : GoErr),
       gtmIs e target = true ↔
         (errorsIsNotFound target = true ∧ e.statusCode = 404) ∨
         (∃ t, target = GoErr.typed t ∧ t.statusCode = e.statusCode ∧
            errMessage t = errMessage e)) ∧
    (∀ s t, gtmIs (mkSimpleError s t) (GoErr.typed (mkSimpleError s t)) = true) ∧
    (∀ s1 s2 t1 t2, s1 ≠ s2 →
       gtmIs (mkSimpleError s1 t1) (GoErr.typed (mkSimpleError s2 t2)) = false) ∧
    (∀ s t1 t2, t1 ≠ t2 → s ≠ 404 →
       gtmIs (mkSimpleError s t1) (GoErr.typed (mkSimpleError s t2)) = false) := by
  refine ⟨gtmIs_iff, ?_, ?_, ?_⟩
  · intro s t
    exact (gtmIs_iff _ _).mpr (Or.inr ⟨mkSimpleError s t, rfl, rfl, rfl⟩)
  · intro s1 s2 t1 t2 hne
    unfold gtmIs
    split_ifs with h
    · exfalso
      simp only [errorsIsNotFound, mkSimpleError, Bool.and_eq_true, beq_iff_eq] at h
      exact hne (h.2.trans h.1.symm)
    · simp [mkSimpleError, hne]
  · intro s t1 t2 hne hs404
    unfold gtmIs
    split_ifs with h
    · exfalso
      simp only [errorsIsNotFound, mkSimpleError, Bool.and_eq_true, beq_iff_eq] at h
      exact hs404 h.2
    · have hmsg : ¬ errMessage (mkSimpleError s t1) = errMessage (mkSimpleError s t2) :=
        fun heq => hne (errMessage_title_inj s s t1 t2 heq)
      simp only [mkSimpleError] at hmsg
      simp [mkSimpleError, hmsg]

/-- C4 counterexample: two typed Error values with identical status 404 but
differing titles compare EQUAL through `Is` — the sentinel branch fires because the
typed 404 target itself matches `ErrNotFound` — contradicting the claim that a
differing title compares unequal. -/
theorem error_is_differing_title_counterexample :
    gtmIs (mkSimpleError 404 "some error") (GoErr.typed (mkSimpleError 404 "other error"))
        = true ∧
    (mkSimpleError 404 "some error").title ≠ (mkSimpleError 404 "other error").title ∧
    (mkSimpleError 404 "some error").statusCode
        = (mkSimpleError 404 "other error").statusCode := by
  refine ⟨by decide, by decide, rfl⟩

/-- C4 witness: with status 401 on both sides, differing titles do compare unequal. -/
theorem error_is_contract_witness :
    gtmIs (mkSimpleError 401 "some error") (GoErr.typed (mkSimpleError 401 "other error"))
      = false :=
  error_is_contract.2.2.2 401 "some error" "other error" (by decide) (by decide)

/-- C5 (amended): the validators built on `validation.Errors` aggregate ALL violated
fields with deterministic field-keyed messages — for
EdgeWorkerDeactivateVersionRequest each field appears in the returned error exactly
when its rule is violated — but gtm's `CidrMap.Validate` reports only the FIRST
violated rule: whenever Name is empty it returns the Name message alone, whatever
DefaultDatacenter is. -/
theorem validators_aggregate_fields :
    (∀ r : EdgeWorkerDeactivateVersionRequest,
       ((∃ m, ("EdgeWorkerID", m) ∈ ewDeactivateVersionValidate r) ↔ r.edgeWorkerID = 0) ∧
       ((∃ m, ("Body.Version", m) ∈ ewDeactivateVersionValidate r) ↔ r.body.version = "") ∧
       ((∃ m, ("Body.Network", m) ∈ ewDeactivateVersionValidate r) ↔
         (r.body.network = "" ∨
           (r.body.network ≠ "PRODUCTION" ∧ r.body.network ≠ "STAGING")))) ∧
    (∀ c : CidrMap, c.name = "" → c.validate = some "CidrMap is missing Name") := by
  refine ⟨?_, cidrMap_validate_first_only⟩
  intro r
  exact ⟨deactivateVersion_collects_edgeWorkerID r, deactivateVersion_collects_version r,
    deactivateVersion_collects_network r⟩

/-- C5 counterexample: a CidrMap violating BOTH rules (empty Name and nil
DefaultDatacenter) gets a single-field error that never mentions the
DefaultDatacenter field, against the claim that all violated fields are
enumerated. -/
theorem cidrMap_validate_not_aggregated :
    CidrMap.validate ⟨none, [], "", []⟩ = some "CidrMap is missing Name" ∧
    hasSub "DefaultDatacenter".data "CidrMap is missing Name".data = false := by
  exact ⟨by decide, by decide⟩

/-- C5 witness: the deactivate-version request with zero EdgeWorkerID and empty
Body.Version lists both fields, and the doubly-invalid CidrMap gets the Name
message. -/
theorem validators_aggregate_fields_witness :
    ((∃ m, ("EdgeWorkerID", m)
        ∈ ewDeactivateVersionValidate ⟨0, ⟨"STAGING", "", ""⟩⟩) ↔ (0 : Int) = 0) ∧
    CidrMap.validate ⟨none, [], "", []⟩ = some "CidrMap is missing Name" :=
  ⟨(validators_aggregate_fields.1 ⟨0, ⟨"STAGING", "", ""⟩⟩).1,
    validators_aggregate_fields.2 ⟨none, [], "", []⟩ (by decide)⟩

/-- C6 (amended): on a decode failure the gtm Error mapper produces a typed Error
whose Title is the fixed fallback text and whose Detail is the decoder's error
message — the raw body text is not carried — and whose StatusCode equals the
response's numeric status; the status code is preserved in every branch, decode
success or not. -/
theorem error_mapper_fallback_and_status :
    (∀ status raw msg, gtmMapError status (ErrBody.invalid raw msg)
        = { title := "Failed to unmarshal error body", detail := msg,
            statusCode := status }) ∧
    (∀ status body, (gtmMapError status body).statusCode = status) := by
  refine ⟨fun status raw msg => rfl, fun status body => ?_⟩
  cases body <;> rfl

/-- C6 counterexample: mapping a 500 response whose body is the non-JSON text
`test` yields Title "Failed to unmarshal error body" — not the raw body text the
claim requires — while the status code is preserved. -/
theorem error_mapper_title_not_raw_body :
    (gtmMapError 500 (ErrBody.invalid "test"
        "invalid character \x27e\x27 in literal true (expecting \x27r\x27)")).title
      ≠ "test" ∧
    (gtmMapError 500 (ErrBody.invalid "test"
        "invalid character \x27e\x27 in literal true (expecting \x27r\x27)")).statusCode
      = 500 :=
  ⟨by decide, rfl⟩

/-- C7: the GET operations build exactly the documented paths — GetCidrMap
dispatches one GET to /config-gtm/v1/domains/<domainName>/cidr-maps/<name> and
ListCidrMaps one GET to /config-gtm/v1/domains/<domainName>/cidr-maps. -/
theorem cidrMap_requests_target_documented_paths
    (p : GtmClient) (name domainName : String) (envG : Env CidrMap)
    (envL : Env CidrMapList) (hG : envG.reqErr = none) (hL : envL.reqErr = none) :
    (getCidrMap p name domainName envG).trace
        = [⟨some ⟨"GET",
            "/config-gtm/v1/domains/" ++ domainName ++ "/cidr-maps/" ++ name⟩, false⟩] ∧
    (listCidrMaps p domainName envL).trace
        = [⟨some ⟨"GET", "/config-gtm/v1/domains/" ++ domainName ++ "/cidr-maps"⟩,
            false⟩] :=
  ⟨getCidrMap_trace p name domainName envG hG, listCidrMaps_trace p domainName envL hL⟩

/-- C7 witness: the concrete domain/name pair of the tests produces the expected
literal path. -/
theorem cidrMap_requests_target_documented_paths_witness :
    (getCidrMap ⟨0⟩ "Software-rollout" "example.akadns.net"
        ⟨none, none, Except.error "x"⟩).trace
      = [⟨some ⟨"GET",
          "/config-gtm/v1/domains/example.akadns.net/cidr-maps/Software-rollout"⟩,
          false⟩] := by
  have h := (cidrMap_requests_target_documented_paths ⟨0⟩ "Software-rollout"
    "example.akadns.net" ⟨none, none, Except.error "x"⟩
    ⟨none, none, Except.error "x"⟩ rfl rfl).1
  rw [h]
  rw [show "/config-gtm/v1/domains/" ++ "example.akadns.net" ++ "/cidr-maps/"
      ++ "Software-rollout"
    = "/config-gtm/v1/domains/example.akadns.net/cidr-maps/Software-rollout" from by decide]

/-- C8: no field of a client struct is written after construction — the
constructors (networklists, cps, datastream) produce the session-carrying client,
mutate it only through the variadic Option functions applied inside `Client`, and
every embedded resource operation hands its client back unchanged. -/
theorem client_not_mutated_after_construction :
    (∀ sess, networklistsClientNew sess [] = ⟨sess, false⟩) ∧
    (∀ sess opts o, networklistsClientNew sess (opts ++ [o])
        = o (networklistsClientNew sess opts)) ∧
    (∀ sess, cpsClientNew sess [] = ⟨sess⟩) ∧
    (∀ sess opts o, cpsClientNew sess (opts ++ [o]) = o (cpsClientNew sess opts)) ∧
    (∀ sess, dsClientNew sess [] = ⟨sess⟩) ∧
    (∀ sess opts o, dsClientNew sess (opts ++ [o]) = o (dsClientNew sess opts)) ∧
    (∀ p d env, (listCidrMaps p d env).client = p) ∧
    (∀ p n d env, (getCidrMap p n d env).client = p) ∧
    (∀ cidr p d env, (CidrMap.save cidr p d env).client = p) ∧
    (∀ p cidr d env, (createCidrMap p cidr d env).client = p) ∧
    (∀ p cidr d env, (updateCidrMap p cidr d env).client = p) ∧
    (∀ p cidr d env, (deleteCidrMap p cidr d env).client = p) ∧
    (∀ e r env, (listDeactivations e r env).client = e) ∧
    (∀ e r env, (deactivateVersion e r env).client = e) ∧
    (∀ e r env, (getDeactivation e r env).client = e) ∧
    (∀ c r env, (deletePolicyProperty c r env).client = c) ∧
    (∀ p r env, (getEdgeHostnames p r env).client = p) ∧
    (∀ p r env, (getEdgeHostname p r env).client = p) ∧
    (∀ p r env f, (createEdgeHostname p r env f).client = p) := by
  refine ⟨fun sess => rfl, ?_, fun sess => rfl, ?_, fun sess => rfl, ?_,
    listCidrMaps_client, getCidrMap_client, save_client, createCidrMap_client,
    updateCidrMap_client, deleteCidrMap_client, listDeactivations_client,
    deactivateVersion_client, getDeactivation_client, deletePolicyProperty_client,
    getEdgeHostnames_client, getEdgeHostname_client, createEdgeHostname_client⟩ <;>
  · intro sess opts o
    simp [networklistsClientNew, cpsClientNew, dsClientNew, List.foldl_append]

/-- C9: GetDeactivation never examines the `http.NewRequestWithContext` error —
with a failing construction it still dispatches `Exec` (with the nil request), the
whole outcome is independent of the construction error's content, and that error is
never returned to the caller. -/
theorem getDeactivation_ignores_construction_error
    (e : EwClient) (params : EdgeWorkerGetDeactivationRequest) (env : Env Deactivation)
    (msg : String) (hv : ewGetDeactivationValidate params = []) (hp : env.parseErr = none)
    (hreq : env.reqErr = some msg) :
    (getDeactivation e params env).trace = [⟨none, false⟩] ∧
    getDeactivation e params env
      = getDeactivation e params { parseErr := none, reqErr := some "", exec := env.exec } ∧
    ∀ op m2, (getDeactivation e params env).result
      ≠ Except.error (OpErr.reqConstruct op m2) :=
  getDeactivation_reqErr_ignored e params env msg hv hp hreq

/-- C9 witness: a concrete valid GetDeactivation request whose request construction
fails still performs the dispatch with a nil request. -/
theorem getDeactivation_ignores_construction_error_witness :
    (getDeactivation ⟨7⟩ ⟨42, 3⟩
        ⟨none, some "net/http: nil Context", Except.error "transport down"⟩).trace
      = [⟨none, false⟩] :=
  (getDeactivation_ignores_construction_error ⟨7⟩ ⟨42, 3⟩
    ⟨none, some "net/http: nil Context", Except.error "transport down"⟩
    "net/http: nil Context" (by decide) rfl rfl).1

/-- C10: after a 201 from CreateEdgeHostname the ID is extracted from
`EdgeHostnameLink`: extraction failure turns the call into an error wrapping the
invalid-location sentinel though the HTTP call itself happened and succeeded, and
extraction success returns the response with `EdgeHostnameID` set. -/
theorem createEdgeHostname_link_extraction
    (p : PapiClient) (r : CreateEdgeHostnameRequest)
    (env : Env CreateEdgeHostnameResponse) (fetchID : String → Except String String)
    (resp : Resp CreateEdgeHostnameResponse)
    (hv : createEhRequestValidate r = []) (hreq : env.reqErr = none)
    (hexec : env.exec = Except.ok resp) (hs : resp.status = 201) :
    (∀ msg, fetchID resp.decoded.edgeHostnameLink = Except.error msg →
       (createEdgeHostname p r env fetchID).result
         = Except.error (OpErr.invalidLocation msg)) ∧
    (∀ ehID, fetchID resp.decoded.edgeHostnameLink = Except.ok ehID →
       (createEdgeHostname p r env fetchID).result
         = Except.ok { resp.decoded with edgeHostnameID := ehID }) ∧
    (createEdgeHostname p r env fetchID).trace ≠ [] :=
  ⟨fun msg hf => createEdgeHostname_fetch_err p r env fetchID resp msg hv hreq hexec hs hf,
   fun ehID hf => createEdgeHostname_fetch_ok p r env fetchID resp ehID hv hreq hexec hs hf,
   createEdgeHostname_calls p r env fetchID hv hreq⟩

/-- C10 witness: with an extractor failing on the returned link, the 201 call comes
back as the invalid-location error. -/
theorem createEdgeHostname_link_extraction_witness :
    (createEdgeHostname ⟨0, false⟩
        ⟨"ctr_1", "grp_1", [], ⟨"prd_1", "www", "edgesuite.net", false, "", 0, "IPV4", 0, []⟩⟩
        ⟨none, none, Except.ok ⟨201, ⟨":", ""⟩, ErrBody.invalid "" ""⟩⟩
        (fun _ => Except.error "parse \x22:\x22: missing protocol scheme")).result
      = Except.error (OpErr.invalidLocation "parse \x22:\x22: missing protocol scheme") :=
  (createEdgeHostname_link_extraction ⟨0, false⟩
    ⟨"ctr_1", "grp_1", [], ⟨"prd_1", "www", "edgesuite.net", false, "", 0, "IPV4", 0, []⟩⟩
    ⟨none, none, Except.ok ⟨201, ⟨":", ""⟩, ErrBody.invalid "" ""⟩⟩
    (fun _ => Except.error "parse \x22:\x22: missing protocol scheme")
    ⟨201, ⟨":", ""⟩, ErrBody.invalid "" ""⟩ (by decide) rfl rfl rfl).1
    "parse \x22:\x22: missing protocol scheme" rfl
